import Mathlib

/-!
# BoloForms: the placement-to-render engine of `backend/server.js`

A shallow embedding of the `/sign-pdf` handler of `src/backend/server.js`
and the properties of its geometry transform, fit computation and field
dispatch.

Numbers are a rational, one of the two infinities, or NaN, and the sign of
zero is not tracked (a zero divisor is read as +0).  The field loop is
embedded in exact arithmetic; the fit and the geometry transform are also
given with every operation rounded to an IEEE 754 double
(`fitImageDouble`, `geometryTransformDouble`), which is where the exact
statements and the runtime part ways.
-/

namespace BoloForms

/-! ## JavaScript numbers -/

/-- A JavaScript number under exact arithmetic: a finite rational value,
`Infinity`, `-Infinity` or `NaN`. -/
inductive JsNum where
  | fin (q : ℚ)
  | pinf
  | ninf
  | nan
  deriving DecidableEq

namespace JsNum

/-- The infinity of the given sign (`true` is negative). -/
def infOfSign (negative : Bool) : JsNum :=
  if negative then ninf else pinf

/-- The sign bit of a number, `false` for NaN and for zero. -/
def isNeg : JsNum → Bool
  | fin q => decide (q < 0)
  | pinf => false
  | ninf => true
  | nan => false

/-- Unary minus. -/
def neg : JsNum → JsNum
  | fin q => fin (-q)
  | pinf => ninf
  | ninf => pinf
  | nan => nan

/-- The `+` operator on numbers. -/
def add : JsNum → JsNum → JsNum
  | fin a, fin b => fin (a + b)
  | nan, _ => nan
  | _, nan => nan
  | pinf, ninf => nan
  | ninf, pinf => nan
  | pinf, _ => pinf
  | ninf, _ => ninf
  | fin _, pinf => pinf
  | fin _, ninf => ninf

/-- The `-` operator on numbers. -/
def sub (a b : JsNum) : JsNum := add a (neg b)

/-- The `*` operator on numbers: `Infinity * 0` is NaN. -/
def mul : JsNum → JsNum → JsNum
  | fin a, fin b => fin (a * b)
  | nan, _ => nan
  | _, nan => nan
  | fin a, y => if a = 0 then nan else infOfSign (xor (decide (a < 0)) y.isNeg)
  | x, fin b => if b = 0 then nan else infOfSign (xor x.isNeg (decide (b < 0)))
  | x, y => infOfSign (xor x.isNeg y.isNeg)

/-- The `/` operator on numbers: `0 / 0` and `Infinity / Infinity` are NaN,
a non-zero value over zero is an infinity, a finite value over an infinity
is zero. -/
def div : JsNum → JsNum → JsNum
  | nan, _ => nan
  | _, nan => nan
  | fin a, fin b =>
    if b = 0 then (if a = 0 then nan else infOfSign (decide (a < 0)))
    else fin (a / b)
  | fin _, _ => fin 0
  | x, fin b => infOfSign (xor x.isNeg (decide (b < 0)))
  | _, _ => nan

instance : Add JsNum := ⟨add⟩
instance : Sub JsNum := ⟨sub⟩
instance : Mul JsNum := ⟨mul⟩
instance : Div JsNum := ⟨div⟩

/-- The `>` operator on numbers: false as soon as one side is NaN. -/
def gt : JsNum → JsNum → Bool
  | nan, _ => false
  | _, nan => false
  | fin a, fin b => decide (b < a)
  | pinf, pinf => false
  | pinf, _ => true
  | ninf, _ => false
  | fin _, pinf => false
  | fin _, ninf => true

/-- Truthiness of a number (`ToBoolean`): false for zero and NaN. -/
def truthy : JsNum → Bool
  | fin q => decide (q ≠ 0)
  | pinf => true
  | ninf => true
  | nan => false

/-- The function `Math.min` on two arguments. -/
def min : JsNum → JsNum → JsNum
  | nan, _ => nan
  | _, nan => nan
  | fin a, fin b => fin (Min.min a b)
  | ninf, _ => ninf
  | _, ninf => ninf
  | pinf, y => y
  | x, pinf => x

end JsNum

/-! ## Fit computation (server.js lines 141-150 and 177-186) -/

/-- The rectangle handed to `page.drawImage`. -/
structure DrawRect where
  x : JsNum
  y : JsNum
  width : JsNum
  height : JsNum
  deriving DecidableEq

/-- The aspect-preserving fit, written twice in the source with the same
text (signature branch, lines 141-150; image branch, lines 177-186). -/
def fitImage (imgW imgH boxX boxY boxWidth boxHeight : JsNum) : DrawRect :=
  let drawW₀ := boxWidth
  let drawH₀ := (imgH / imgW) * drawW₀
  let drawH := if JsNum.gt drawH₀ boxHeight then boxHeight else drawH₀
  let drawW := if JsNum.gt drawH₀ boxHeight then (imgW / imgH) * drawH else drawW₀
  let drawX := boxX + (boxWidth - drawW) / JsNum.fin 2
  let drawY := boxY + (boxHeight - drawH) / JsNum.fin 2
  { x := drawX, y := drawY, width := drawW, height := drawH }

/-! ## JavaScript values and the collaborators of the handler -/

/-- A value read from the parsed JSON body.  An array or object is carried
as `object prim`, where `prim` is the string its conversion to a primitive
yields (`""` for `[]`, `"5"` for `[5]`, `"[object Object]"` for a plain
object); the handler only ever coerces such a value with `Number`. -/
inductive JsVal where
  | undefined
  | null
  | bool (b : Bool)
  | num (n : JsNum)
  | str (s : String)
  | object (prim : String)
  deriving DecidableEq

/-- Truthiness of a value (`ToBoolean`). -/
def JsVal.truthy : JsVal → Bool
  | .undefined => false
  | .null => false
  | .bool b => b
  | .num n => n.truthy
  | .str s => decide (s ≠ "")
  | .object _ => true

/-- Raw bytes. -/
abbrev Bytes := List Nat

/-- An embedded image handle of the document codec, with its intrinsic size
(`img.width`, `img.height`). -/
structure PDFImage where
  ref : Nat
  width : JsNum
  height : JsNum
  deriving DecidableEq

/-- The exceptions that end up in the handler's `catch`. -/
inductive JsError where
  | typeError
  | referenceError
  | hostError (msg : String)
  deriving DecidableEq

/-- The collaborators the field loop calls into: the runtime's string to
number conversion, base64 decoding (`Buffer.from(s, 'base64')`), the two
image embedders of the document codec, and the clock read by `new Date()`
(`getFullYear()`, `getMonth()`, `getDate()`), taken as constant over one
request. -/
structure Host where
  stringToNumber : String → JsNum
  fromBase64 : String → Bytes
  embedPng : Bytes → Except JsError PDFImage
  embedJpg : Bytes → Except JsError PDFImage
  fullYear : Int
  monthIndex : Nat
  dayOfMonth : Nat

/-- The function `Number(v)`. -/
def toNumber (h : Host) : JsVal → JsNum
  | .undefined => .nan
  | .null => .fin 0
  | .bool b => if b then .fin 1 else .fin 0
  | .num n => n
  | .str s => h.stringToNumber s
  | .object prim => h.stringToNumber prim

/-- The expression `Number(v) || 0` of lines 127-130. -/
def numberOrZero (h : Host) (v : JsVal) : JsNum :=
  if (toNumber h v).truthy then toNumber h v else .fin 0

/-- One element of `body.fields` that is not `null`: the attributes the
handler reads, `undefined` when absent. -/
structure Field where
  type : JsVal
  page : JsVal
  xPercent : JsVal
  yPercent : JsVal
  widthPercent : JsVal
  heightPercent : JsVal
  value : JsVal
  checked : JsVal
  imageData : JsVal
  deriving DecidableEq

/-- One element of the `fields` array: `null`, on which a property read
throws, or any other value, read through its attributes. -/
inductive FieldEntry where
  | null
  | obj (f : Field)
  deriving DecidableEq

/-- A page of the loaded document, with the size `page.getSize()` reports. -/
structure Page where
  width : JsNum
  height : JsNum
  deriving DecidableEq

/-! ## Page resolution (lines 121-125) -/

/-- Line 121: `typeof f.page === 'number' ? f.page : 0`. -/
def pageIndexOf (f : Field) : JsNum :=
  match f.page with
  | .num n => n
  | _ => .fin 0

/-- The read `pages[i]` for a number `i`: defined exactly when `i` is a
non-negative integer below the length.  The position is returned with the
page. -/
def arrayGet (pages : List Page) (i : JsNum) : Option (Nat × Page) :=
  match i with
  | .fin q =>
    if q.den = 1 ∧ 0 ≤ q.num then
      (pages.get? q.num.toNat).map (fun p => (q.num.toNat, p))
    else none
  | _ => none

/-- Line 122: `pages[pageIndex] || pages[0]`; `none` is `undefined`. -/
def resolvePage (pages : List Page) (f : Field) : Option (Nat × Page) :=
  match arrayGet pages (pageIndexOf f) with
  | some p => some p
  | none => arrayGet pages (.fin 0)

/-! ## Geometry transform (lines 127-136) -/

/-- The absolute box of a field. -/
structure Box where
  boxX : JsNum
  boxY : JsNum
  boxWidth : JsNum
  boxHeight : JsNum
  deriving DecidableEq

/-- Lines 127-136: percentages to page coordinates, vertical axis flipped. -/
def geometryTransform (h : Host) (pw ph : JsNum) (f : Field) : Box :=
  let xPercent := numberOrZero h f.xPercent
  let yPercent := numberOrZero h f.yPercent
  let wPercent := numberOrZero h f.widthPercent
  let hPercent := numberOrZero h f.heightPercent
  let boxWidth := (wPercent / .fin 100) * pw
  let boxHeight := (hPercent / .fin 100) * ph
  let boxX := (xPercent / .fin 100) * pw
  let topY := (yPercent / .fin 100) * ph
  let boxY := ph - topY - boxHeight
  { boxX := boxX, boxY := boxY, boxWidth := boxWidth, boxHeight := boxHeight }

/-- Line 138: `!boxWidth || !boxHeight`, the test that skips a field. -/
def Box.skipped (b : Box) : Bool :=
  !b.boxWidth.truthy || !b.boxHeight.truthy

/-! ## Embedding an image payload (lines 101-113 and 160-172) -/

/-- The test `s.indexOf(pat) !== -1`. -/
def hasSubstr (pat : List Char) : List Char → Bool
  | [] => pat.isEmpty
  | c :: cs => pat.isPrefixOf (c :: cs) || hasSubstr pat cs

/-- Lines 102 and 161: the payload names a JPEG MIME type. -/
def isJpgPayload (s : String) : Bool :=
  hasSubstr "image/jpeg".toList s.toList || hasSubstr "image/jpg".toList s.toList

/-- Lines 103-107 and 162-166: what follows the first comma, or the whole
payload when it has no comma. -/
def stripDataUrl (s : String) : String :=
  let commaIndex := s.toList.indexOf ','
  if commaIndex < s.toList.length then String.mk (s.toList.drop (commaIndex + 1)) else s

/-- Lines 101-113 and 160-172: sniff the format, strip the data URL head,
decode and embed. -/
def embedImage (h : Host) (s : String) : Except JsError PDFImage :=
  let isJpg := isJpgPayload s
  let imgBytes := h.fromBase64 (stripDataUrl s)
  if isJpg then h.embedJpg imgBytes else h.embedPng imgBytes

/-! ## Text of text and date fields (lines 195-204) -/

/-- The characters `String.prototype.trim` removes: white space and line
terminators of ECMAScript. -/
def isJsWhiteSpace (c : Char) : Bool :=
  c.toNat ∈ [0x09, 0x0A, 0x0B, 0x0C, 0x0D, 0x20, 0xA0, 0x1680, 0x2028, 0x2029, 0x202F,
    0x205F, 0x3000, 0xFEFF] || (0x2000 ≤ c.toNat && c.toNat ≤ 0x200A)

/-- The method `trim()`. -/
def jsTrim (s : String) : String :=
  String.mk ((s.toList.dropWhile isJsWhiteSpace).reverse.dropWhile isJsWhiteSpace).reverse

/-- The call `padStart(2, '0')`. -/
def padStart2 (s : String) : String :=
  String.mk (List.replicate (2 - s.length) '0') ++ s

/-- Lines 197-201: the current date as `year + '-' + month + '-' + day`. -/
def dateText (h : Host) : String :=
  toString h.fullYear ++ "-" ++ padStart2 (toString (h.monthIndex + 1)) ++ "-" ++
    padStart2 (toString h.dayOfMonth)

/-- Line 203: the field's value when it is a string that is not blank, the
placeholder otherwise. -/
def textOf (f : Field) : String :=
  match f.value with
  | .str s => if (JsVal.str (jsTrim s)).truthy then s else "Text"
  | _ => "Text"

/-! ## Field dispatch (lines 140-219) -/

/-- A call made on a page of the document, recorded with the position of
the page and the arguments passed.  What the codec does inside the call is
not modelled. -/
inductive DrawCmd where
  | drawImage (page : Nat) (img : PDFImage) (rect : DrawRect)
  | drawText (page : Nat) (text : String) (x y size : JsNum)
  | drawCircle (page : Nat) (x y size borderWidth : JsNum)
  deriving DecidableEq

/-- The page a command is drawn on. -/
def DrawCmd.page : DrawCmd → Nat
  | .drawImage p _ _ => p
  | .drawText p _ _ _ _ => p
  | .drawCircle p _ _ _ _ => p

/-- Lines 158-175: the image of an image field, its own payload first, the
shared signature image otherwise; `none` is the `null` the variable starts
with. -/
def fieldImage (h : Host) (signatureImage : Option PDFImage) (f : Field) :
    Except JsError (Option PDFImage) :=
  match f.imageData with
  | .str s =>
    if (JsVal.str s).truthy then
      match embedImage h s with
      | .ok img => .ok (some img)
      | .error e => .error e
    else .ok signatureImage
  | _ => .ok signatureImage

/-- Lines 140-219: the branch taken for a field whose box is not skipped. -/
def renderField (h : Host) (signatureImage : Option PDFImage) (pageIdx : Nat) (b : Box)
    (f : Field) : Except JsError (List DrawCmd) :=
  match decide (f.type = .str "signature"), signatureImage with
  | true, some img =>
    .ok [.drawImage pageIdx img
      (fitImage img.width img.height b.boxX b.boxY b.boxWidth b.boxHeight)]
  | _, _ =>
    if f.type = .str "image" then
      match fieldImage h signatureImage f with
      | .error e => .error e
      | .ok none => .ok []
      | .ok (some img) =>
        .ok [.drawImage pageIdx img
          (fitImage img.width img.height b.boxX b.boxY b.boxWidth b.boxHeight)]
    else if f.type = .str "text" ∨ f.type = .str "date" then
      let text := if f.type = .str "date" then dateText h else textOf f
      let fontSize := JsNum.fin 10
      let textX := b.boxX + .fin 2
      let textY := b.boxY + b.boxHeight / .fin 2 - fontSize / .fin 2
      .ok [.drawText pageIdx text textX textY fontSize]
    else if f.type = .str "radio" then
      let r := JsNum.min b.boxWidth b.boxHeight / .fin 4
      let cx := b.boxX + b.boxWidth / .fin 2
      let cy := b.boxY + b.boxHeight / .fin 2
      .ok [.drawCircle pageIdx cx cy r (.fin 1)]
    else .ok []

/-- Lines 120-219: the body of the loop for one element of `fields`. -/
def processField (h : Host) (pages : List Page) (signatureImage : Option PDFImage)
    (e : FieldEntry) : Except JsError (List DrawCmd) :=
  match e with
  | .null => .error .typeError
  | .obj f =>
    match resolvePage pages f with
    | none => .error .typeError
    | some (pageIdx, page) =>
      let b := geometryTransform h page.width page.height f
      if b.skipped then .ok []
      else renderField h signatureImage pageIdx b f

/-- What the loop leaves behind: the draw calls made, in order, and the
exception that stopped it, if any. -/
structure RenderResult where
  draws : List DrawCmd
  error : Option JsError
  deriving DecidableEq

/-- Lines 119-220: the loop over `fields`, in the given order, stopped by
the first exception. -/
def renderFields (h : Host) (pages : List Page) (signatureImage : Option PDFImage) :
    List FieldEntry → RenderResult
  | [] => { draws := [], error := none }
  | e :: es =>
    match processField h pages signatureImage e with
    | .error err => { draws := [], error := some err }
    | .ok cmds =>
      { draws := cmds ++ (renderFields h pages signatureImage es).draws,
        error := (renderFields h pages signatureImage es).error }

/-- The document after the loop: every page of the loaded document, in
order, with the calls drawn on it.  A call aimed at a position that is not
a page leaves the document as it is. -/
def renderedDocument (pages : List Page) (draws : List DrawCmd) : List (Page × List DrawCmd) :=
  draws.foldl (fun doc c => doc.modify (fun pc => (pc.1, pc.2 ++ [c])) c.page)
    (pages.map (fun p => (p, [])))

/-! ## The handler of `POST /sign-pdf` (lines 78-251) -/

/-- The collaborators of the handler outside the field loop: the module
constants `mongoUrl`, `uploadsDir` and `signedDir`, the `path` functions
(`stem p` is `path.basename(p, path.extname(p))`), the file system, the
hash, the document codec (`load` yields the pages, `save` serialises the
document with the calls drawn on it), the clock `Date.now()` and the audit
store. -/
structure Server extends Host where
  mongoUrl : String
  uploadsDir : String
  signedDir : String
  pathJoin : String → String → String
  stem : String → String
  existsSync : String → Bool
  readFileSync : String → Except JsError Bytes
  sha256Hex : Bytes → String
  load : Bytes → Except JsError (List Page)
  save : List Page → List DrawCmd → Except JsError Bytes
  writeFileSync : String → Bytes → Except JsError Unit
  dateNow : Nat
  auditSave : String → String → String → Except JsError Unit

/-- The parsed body of a sign request: `pdfId` as sent, `base64Signature`
after `|| ''` for a body that carries a string or nothing there, and
`fields` when it is an array (`none` otherwise). -/
structure SignRequest where
  pdfId : JsVal
  base64Signature : String
  fields : Option (List FieldEntry)

/-- The response of the handler: `res.status(s).json(\x7b error \x7d)` or
`res.json(\x7b url \x7d)`. -/
inductive Response where
  | error (status : Nat) (message : String)
  | signed (url : String)
  deriving DecidableEq

/-- What one request leaves behind: the response and the file written to
the signed directory, if the handler got that far. -/
structure SignOutcome where
  response : Response
  written : Option (String × Bytes)
  deriving DecidableEq

/-- The identifiers bound where line 245 is evaluated: the module's
top-level declarations, the globals the file uses, the handler's parameters
and the declarations of the `try` block above that line.  The two `err`
bindings of the file belong to the `catch` clauses of lines 239 and 247 and
are visible only inside them; the loop's declarations are block scoped. -/
def scopeAtLine245 : List String :=
  ["express", "path", "fs", "crypto", "mongoose", "PDFDocument", "StandardFonts", "cors",
   "multer", "app", "port", "mongoUrl", "auditSchema", "Audit", "uploadsDir", "signedDir",
   "storage", "upload",
   "console", "process", "require", "__dirname", "Buffer", "Date", "Number", "String",
   "Array", "Math",
   "req", "res",
   "body", "pdfId", "base64Signature", "fields", "originalPath", "originalBytes",
   "originalHash", "pdfDoc", "signatureImage", "pages", "font", "signedBytes", "signedHash",
   "namePart", "stampedName", "signedPath", "url"]

/-- Reading an identifier: a `ReferenceError` when it is not bound. -/
def resolveIdentifier (scope : List String) (name : String) : Except JsError Unit :=
  if name ∈ scope then .ok () else .error .referenceError

/-- Lines 94-228: from reading the source file to writing the signed one.
Returns the stamped name with the path and bytes written, and the two
hashes.  Embedding the built-in font (line 117) is taken not to fail. -/
def renderAndWrite (sv : Server) (pdfId : String) (req : SignRequest) :
    Except JsError (String × String × Bytes × String × String) := do
  let originalPath := sv.pathJoin sv.uploadsDir pdfId
  let originalBytes ← sv.readFileSync originalPath
  let originalHash := sv.sha256Hex originalBytes
  let pages ← sv.load originalBytes
  let signatureImage ←
    if req.base64Signature ≠ "" then (embedImage sv.toHost req.base64Signature).map some
    else pure none
  let fields := req.fields.getD []
  let r := renderFields sv.toHost pages signatureImage fields
  match r.error with
  | some e => throw e
  | none =>
    let signedBytes ← sv.save pages r.draws
    let signedHash := sv.sha256Hex signedBytes
    let namePart := sv.stem pdfId
    let stampedName := namePart ++ "-signed-" ++ toString sv.dateNow ++ ".pdf"
    let signedPath := sv.pathJoin sv.signedDir stampedName
    sv.writeFileSync signedPath signedBytes
    pure (stampedName, signedPath, signedBytes, originalHash, signedHash)

/-- Lines 230-242: the audit write, whose own failure is caught and logged. -/
def auditStep (sv : Server) (pdfId originalHash signedHash : String) : Unit :=
  if sv.mongoUrl ≠ "" then
    match sv.auditSave pdfId originalHash signedHash with
    | .ok _ => ()
    | .error _ => ()
  else ()

/-- Lines 78-251: the handler.  Any exception of the `try` block is answered
with status 500; so is the `ReferenceError` of line 245, which reads `err`
after the file is written and before `res.json` on line 246. -/
def signPdf (sv : Server) (req : SignRequest) : SignOutcome :=
  if !req.pdfId.truthy then
    { response := .error 400 "pdfId is required", written := none }
  else
    match req.pdfId with
    | .str pdfId =>
      if !sv.existsSync (sv.pathJoin sv.uploadsDir pdfId) then
        { response := .error 404 "PDF not found", written := none }
      else
        match renderAndWrite sv pdfId req with
        | .error _ => { response := .error 500 "Failed to sign PDF", written := none }
        | .ok (stampedName, signedPath, signedBytes, originalHash, signedHash) =>
          let _ := auditStep sv pdfId originalHash signedHash
          let url := "/signed/" ++ stampedName
          match resolveIdentifier scopeAtLine245 "err" with
          | .error _ =>
            { response := .error 500 "Failed to sign PDF",
              written := some (signedPath, signedBytes) }
          | .ok _ => { response := .signed url, written := some (signedPath, signedBytes) }
    | _ => { response := .error 500 "Failed to sign PDF", written := none }

/-! ## The editor's mouse-move handler (frontend/src/App.jsx lines 222-269) -/

/-- A field of the editor's state (App.jsx lines 288-296, with the
attributes added by the double-click handlers).  The numbers of the editor
are mouse positions, sizes of DOM rectangles and values computed from them;
they are finite and are modelled as rationals. -/
structure UiField where
  id : String
  type : String
  page : Nat
  xPercent : ℚ
  yPercent : ℚ
  widthPercent : ℚ
  heightPercent : ℚ
  value : Option String
  checked : Option Bool
  imageData : Option String

/-- The state `sideDrag` (line 193). -/
structure SideDrag where
  type : String
  x : ℚ
  y : ℚ

/-- The state `dragState` (lines 199-205). -/
structure DragState where
  id : String
  startX : ℚ
  startY : ℚ
  xPercent : ℚ
  yPercent : ℚ

/-- The state `resizeState` (lines 212-218). -/
structure ResizeState where
  id : String
  startX : ℚ
  startY : ℚ
  widthPercent : ℚ
  heightPercent : ℚ

/-- The part of the component state `handleMouseMove` reads and writes. -/
structure EditorState where
  fields : List UiField
  sideDrag : Option SideDrag
  dragState : Option DragState
  resizeState : Option ResizeState

/-- The position of a mouse event. -/
structure MouseEvent where
  clientX : ℚ
  clientY : ℚ

/-- The size of the wrapper's bounding rectangle. -/
structure WrapperRect where
  width : ℚ
  height : ℚ

/-- Lines 239-247: the update of one field while dragging. -/
def dragField (d : DragState) (pw ph : ℚ) (e : MouseEvent) (f : UiField) : UiField :=
  if f.id ≠ d.id then f
  else
    let dx := e.clientX - d.startX
    let dy := e.clientY - d.startY
    let dxPercent := (dx / pw) * 100
    let dyPercent := (dy / ph) * 100
    let nx₀ := d.xPercent + dxPercent
    let ny₀ := d.yPercent + dyPercent
    let nx₁ := if nx₀ < 0 then 0 else nx₀
    let ny₁ := if ny₀ < 0 then 0 else ny₀
    let nx := if nx₁ + f.widthPercent > 100 then 100 - f.widthPercent else nx₁
    let ny := if ny₁ + f.heightPercent > 100 then 100 - f.heightPercent else ny₁
    { f with xPercent := nx, yPercent := ny }

/-- Lines 251-265: the update of one field while resizing. -/
def resizeField (r : ResizeState) (pw ph : ℚ) (e : MouseEvent) (f : UiField) : UiField :=
  if f.id ≠ r.id then f
  else
    let dx := e.clientX - r.startX
    let dy := e.clientY - r.startY
    let dwPercent := (dx / pw) * 100
    let dhPercent := (dy / ph) * 100
    let nw₀ := r.widthPercent + dwPercent
    let nh₀ := r.heightPercent + dhPercent
    let nw₁ := if nw₀ < 3 then 3 else nw₀
    let nh₁ := if nh₀ < 3 then 3 else nh₀
    let nw := if f.xPercent + nw₁ > 100 then 100 - f.xPercent else nw₁
    let nh := if f.yPercent + nh₁ > 100 then 100 - f.yPercent else nh₁
    { f with widthPercent := nw, heightPercent := nh }

/-- Lines 222-269: `handleMouseMove`.  `rect` is the bounding rectangle of
the wrapper, `none` when the ref is empty. -/
def handleMouseMove (st : EditorState) (rect : Option WrapperRect) (e : MouseEvent) :
    EditorState :=
  match st.sideDrag with
  | some sd => { st with sideDrag := some { type := sd.type, x := e.clientX, y := e.clientY } }
  | none =>
    let pw := match rect with
      | some r => r.width
      | none => 0
    let ph := match rect with
      | some r => r.height
      | none => 0
    match st.dragState, decide (pw ≠ 0 ∧ ph ≠ 0) with
    | some d, true => { st with fields := st.fields.map (dragField d pw ph e) }
    | _, _ =>
      match st.resizeState, decide (pw ≠ 0 ∧ ph ≠ 0) with
      | some r, true => { st with fields := st.fields.map (resizeField r pw ph e) }
      | _, _ => st

/-! ## The same computations in IEEE 754 doubles -/

/-- The position of the highest set bit, by halving; `fuel` bounds the
number of halvings. -/
def log2Aux : Nat → Nat → Nat
  | 0, _ => 0
  | fuel + 1, n => if n < 2 then 0 else log2Aux fuel (n / 2) + 1

/-- The integer part of the binary logarithm of a positive number. -/
def floorLog2 (n : Nat) : Nat := log2Aux n n

/-- The double nearest to the positive rational `a / b`, as a rational:
53 significant bits, round to nearest with ties to even, the exponent held
at -1022 in the subnormal range.  The value `2 ^ 1024` is returned where
the double overflows. -/
def roundMagnitude (a b : Nat) : ℚ :=
  let e₀ : Int := (floorLog2 a : Int) - (floorLog2 b : Int)
  let e : Int := if b * 2 ^ e₀.toNat ≤ a * 2 ^ (-e₀).toNat then e₀ else e₀ - 1
  let s : Int := max e (-1022) - 52
  let n := a * 2 ^ (-s).toNat
  let d := b * 2 ^ s.toNat
  let k := n / d
  let r := n % d
  let m := if 2 * r < d then k else if d < 2 * r then k + 1 else if k % 2 = 0 then k else k + 1
  ((m * 2 ^ s.toNat : Nat) : ℚ) / ((2 ^ (-s).toNat : Nat) : ℚ)

/-- The value the runtime stores for an exact result: the nearest double,
an infinity on overflow.  Infinities and NaN are kept. -/
def JsNum.toDouble : JsNum → JsNum
  | .fin q =>
    if q = 0 then .fin 0
    else if (2 : ℚ) ^ 1024 ≤ roundMagnitude q.num.natAbs q.den then
      JsNum.infOfSign (decide (q < 0))
    else if q < 0 then .fin (-(roundMagnitude q.num.natAbs q.den))
    else .fin (roundMagnitude q.num.natAbs q.den)
  | x => x

/-- The fit of lines 141-150 and 177-186 with every operation rounded to a
double, as the runtime computes it. -/
def fitImageDouble (imgW imgH boxX boxY boxWidth boxHeight : JsNum) : DrawRect :=
  let drawW₀ := boxWidth
  let drawH₀ := ((imgH / imgW).toDouble * drawW₀).toDouble
  let drawH := if JsNum.gt drawH₀ boxHeight then boxHeight else drawH₀
  let drawW :=
    if JsNum.gt drawH₀ boxHeight then ((imgW / imgH).toDouble * drawH).toDouble else drawW₀
  let drawX := (boxX + ((boxWidth - drawW).toDouble / JsNum.fin 2).toDouble).toDouble
  let drawY := (boxY + ((boxHeight - drawH).toDouble / JsNum.fin 2).toDouble).toDouble
  { x := drawX, y := drawY, width := drawW, height := drawH }

/-- The transform of lines 127-136 with every operation rounded to a
double, as the runtime computes it. -/
def geometryTransformDouble (h : Host) (pw ph : JsNum) (f : Field) : Box :=
  let xPercent := numberOrZero h f.xPercent
  let yPercent := numberOrZero h f.yPercent
  let wPercent := numberOrZero h f.widthPercent
  let hPercent := numberOrZero h f.heightPercent
  let boxWidth := ((wPercent / .fin 100).toDouble * pw).toDouble
  let boxHeight := ((hPercent / .fin 100).toDouble * ph).toDouble
  let boxX := ((xPercent / .fin 100).toDouble * pw).toDouble
  let topY := ((yPercent / .fin 100).toDouble * ph).toDouble
  let boxY := ((ph - topY).toDouble - boxHeight).toDouble
  { boxX := boxX, boxY := boxY, boxWidth := boxWidth, boxHeight := boxHeight }

/-! ## Sample collaborators used to instantiate the theorems -/

/-- A host whose embedders accept every payload: PNG payloads yield a
200 x 100 image, JPEG payloads a 100 x 100 image. -/
def sampleHost : Host where
  stringToNumber := fun _ => .nan
  fromBase64 := fun s => s.toList.map Char.toNat
  embedPng := fun _ => .ok { ref := 1, width := .fin 200, height := .fin 100 }
  embedJpg := fun _ => .ok { ref := 2, width := .fin 100, height := .fin 100 }
  fullYear := 2024
  monthIndex := 2
  dayOfMonth := 7

/-- A server over `sampleHost` where every file exists and loads as a
one-page document of 600 x 800, and where saving and writing succeed. -/
def sampleServer : Server where
  toHost := sampleHost
  mongoUrl := ""
  uploadsDir := "uploads"
  signedDir := "signed"
  pathJoin := fun a b => a ++ "/" ++ b
  stem := fun s => s
  existsSync := fun _ => true
  readFileSync := fun _ => .ok [37, 80, 68, 70]
  sha256Hex := fun _ => "00"
  load := fun _ => .ok [{ width := .fin 600, height := .fin 800 }]
  save := fun _ cmds => .ok [cmds.length]
  writeFileSync := fun _ _ => .ok ()
  dateNow := 0
  auditSave := fun _ _ _ => .ok ()

/-- A one-page document of 600 x 800. -/
def onePage : List Page := [{ width := .fin 600, height := .fin 800 }]

/-- A field with every attribute absent. -/
def emptyField : Field :=
  { type := .undefined, page := .undefined, xPercent := .undefined, yPercent := .undefined,
    widthPercent := .undefined, heightPercent := .undefined, value := .undefined,
    checked := .undefined, imageData := .undefined }

/-- A radio field of 5 x 5 percent at the page origin. -/
def sampleRadio : Field :=
  { emptyField with type := .str "radio", widthPercent := .num (.fin 5),
                    heightPercent := .num (.fin 5) }

/-- A text field of zero width. -/
def zeroWidthText : Field :=
  { emptyField with type := .str "text", widthPercent := .num (.fin 0),
                    heightPercent := .num (.fin 10) }

/-- A signature field of 20 x 6 percent placed at (10, 10) percent. -/
def sampleSignature : Field :=
  { emptyField with type := .str "signature", page := .num (.fin 0),
                    xPercent := .num (.fin 10), yPercent := .num (.fin 10),
                    widthPercent := .num (.fin 20), heightPercent := .num (.fin 6) }

/-- An embedded image of intrinsic size 0 x 100. -/
def zeroWidthImage : PDFImage :=
  { ref := 7, width := .fin 0, height := .fin 100 }

/-- A two-page document: 600 x 800, then 300 x 400. -/
def twoPages : List Page :=
  [{ width := .fin 600, height := .fin 800 }, { width := .fin 300, height := .fin 400 }]

/-- The sample radio field with the given page attribute. -/
def radioOnPage (page : JsVal) : Field :=
  { sampleRadio with page := page }

/-- An image field of 20 x 10 percent with the given payload. -/
def imageField (imageData : JsVal) : Field :=
  { emptyField with type := .str "image", widthPercent := .num (.fin 20),
                    heightPercent := .num (.fin 10), imageData := imageData }

/-- A shared signature image of 380 x 140, the size of the drawing canvas. -/
def sharedSignature : PDFImage :=
  { ref := 9, width := .fin 380, height := .fin 140 }

/-- The text field of the spec's end-to-end example: (10, 10, 30, 10)
percent with the given value. -/
def textField (value : JsVal) : Field :=
  { emptyField with type := .str "text", xPercent := .num (.fin 10),
                    yPercent := .num (.fin 10), widthPercent := .num (.fin 30),
                    heightPercent := .num (.fin 10), value := value }

/-- A date field of 20 x 6 percent with the given value. -/
def dateField (value : JsVal) : Field :=
  { emptyField with type := .str "date", widthPercent := .num (.fin 20),
                    heightPercent := .num (.fin 6), value := value }

/-- The sample host with its clock set to 1 January 10000. -/
def farFutureHost : Host :=
  { sampleHost with fullYear := 10000, monthIndex := 0, dayOfMonth := 1 }

/-- A signature field of the editor dropped at 98 percent from the left,
with the default size 20 x 6 (App.jsx lines 279-296). -/
def droppedNearEdge : UiField :=
  { id := "f1", type := "signature", page := 0, xPercent := 98, yPercent := 10,
    widthPercent := 20, heightPercent := 6, value := none, checked := none,
    imageData := none }

/-- A signature field of the editor at (10, 10) percent with the default
size. -/
def droppedInside : UiField :=
  { id := "f1", type := "signature", page := 0, xPercent := 10, yPercent := 10,
    widthPercent := 20, heightPercent := 6, value := none, checked := none,
    imageData := none }

/-- The resize state started on the field `f1` at the mouse position
(100, 100). -/
def sampleResize : ResizeState :=
  { id := "f1", startX := 100, startY := 100, widthPercent := 20, heightPercent := 6 }

/-- The editor while the field `f1` is resized. -/
def resizing (f : UiField) : EditorState :=
  { fields := [f], sideDrag := none, dragState := none, resizeState := some sampleResize }

/-- A field that touches the right and the bottom edge of the page:
(45, 45, 55, 55) percent. -/
def edgeField : Field :=
  { emptyField with type := .str "text", xPercent := .num (.fin 45),
                    yPercent := .num (.fin 45), widthPercent := .num (.fin 55),
                    heightPercent := .num (.fin 55) }

/-- A host whose embedders answer with an image that records the bytes it
was given: the reference of a PNG is the number of bytes, that of a JPEG
1000 more. -/
def payloadHost : Host :=
  { sampleHost with
    embedPng := fun bytes => .ok { ref := bytes.length, width := .fin 200, height := .fin 100 }
    embedJpg := fun bytes =>
      .ok { ref := 1000 + bytes.length, width := .fin 100, height := .fin 100 } }

/-! ## Arithmetic on finite values -/

@[simp] theorem JsNum.fin_add (a b : ℚ) : JsNum.fin a + JsNum.fin b = JsNum.fin (a + b) := rfl

@[simp] theorem JsNum.fin_sub (a b : ℚ) : JsNum.fin a - JsNum.fin b = JsNum.fin (a - b) := by
  show JsNum.add (JsNum.fin a) (JsNum.neg (JsNum.fin b)) = _
  simp [JsNum.add, JsNum.neg, sub_eq_add_neg]

@[simp] theorem JsNum.fin_mul (a b : ℚ) : JsNum.fin a * JsNum.fin b = JsNum.fin (a * b) := rfl

theorem JsNum.fin_div (a b : ℚ) (hb : b ≠ 0) :
    JsNum.fin a / JsNum.fin b = JsNum.fin (a / b) := by
  show JsNum.div (JsNum.fin a) (JsNum.fin b) = _
  simp [JsNum.div, hb]

@[simp] theorem JsNum.fin_div_two (a : ℚ) :
    JsNum.fin a / JsNum.fin 2 = JsNum.fin (a / 2) :=
  JsNum.fin_div a 2 (by norm_num)

@[simp] theorem JsNum.gt_fin (a b : ℚ) : JsNum.gt (JsNum.fin a) (JsNum.fin b) = decide (b < a) := rfl

/-- The fit on finite inputs with non-zero intrinsic sizes, in closed form:
the source's test `drawH > boxHeight` decides between the width-bound and
the height-bound rectangle. -/
theorem fitImage_fin (imgW imgH boxX boxY boxWidth boxHeight : ℚ)
    (hW : imgW ≠ 0) (hH : imgH ≠ 0) :
    fitImage (.fin imgW) (.fin imgH) (.fin boxX) (.fin boxY) (.fin boxWidth) (.fin boxHeight) =
      if boxHeight < imgH / imgW * boxWidth then
        { x := .fin (boxX + (boxWidth - imgW / imgH * boxHeight) / 2),
          y := .fin (boxY + (boxHeight - boxHeight) / 2),
          width := .fin (imgW / imgH * boxHeight),
          height := .fin boxHeight }
      else
        { x := .fin (boxX + (boxWidth - boxWidth) / 2),
          y := .fin (boxY + (boxHeight - imgH / imgW * boxWidth) / 2),
          width := .fin boxWidth,
          height := .fin (imgH / imgW * boxWidth) } := by
  unfold fitImage
  simp only [JsNum.fin_div _ _ hW, JsNum.fin_div _ _ hH, JsNum.fin_mul, JsNum.gt_fin]
  by_cases h : boxHeight < imgH / imgW * boxWidth
  · simp [h]
  · simp [h]

/-- C2: for positive intrinsic sizes and a positive box, the fit returns a
finite draw size with `drawW <= boxWidth`, `drawH <= boxHeight` and the
aspect ratio of the asset, `drawW * imgH = drawH * imgW`. -/
theorem fit_inside_box_keeps_aspect (imgW imgH boxX boxY boxWidth boxHeight : ℚ)
    (hW : 0 < imgW) (hH : 0 < imgH) (_hbw : 0 < boxWidth) (_hbh : 0 < boxHeight) :
    ∃ drawW drawH : ℚ,
      (fitImage (.fin imgW) (.fin imgH) (.fin boxX) (.fin boxY)
        (.fin boxWidth) (.fin boxHeight)).width = .fin drawW ∧
      (fitImage (.fin imgW) (.fin imgH) (.fin boxX) (.fin boxY)
        (.fin boxWidth) (.fin boxHeight)).height = .fin drawH ∧
      drawW ≤ boxWidth ∧ drawH ≤ boxHeight ∧ drawW * imgH = drawH * imgW := by
  rw [fitImage_fin _ _ _ _ _ _ hW.ne' hH.ne']
  by_cases h : boxHeight < imgH / imgW * boxWidth
  · refine ⟨imgW / imgH * boxHeight, boxHeight, by simp [h], by simp [h], ?_, le_refl _, ?_⟩
    · have h1 : boxHeight * imgW < imgH * boxWidth := by
        have := mul_lt_mul_of_pos_right h hW
        rwa [div_mul_eq_mul_div, div_mul_cancel₀ _ hW.ne'] at this
      rw [div_mul_eq_mul_div, div_le_iff₀ hH]
      nlinarith
    · field_simp
      ring
  · refine ⟨boxWidth, imgH / imgW * boxWidth, by simp [h], by simp [h], le_refl _, not_lt.mp h, ?_⟩
    field_simp
    ring

/-- Witness for C2: a 200 x 100 asset in a 50 x 50 box. -/
theorem fit_inside_box_keeps_aspect_witness :
    ∃ drawW drawH : ℚ,
      (fitImage (.fin 200) (.fin 100) (.fin 0) (.fin 0) (.fin 50) (.fin 50)).width = .fin drawW ∧
      (fitImage (.fin 200) (.fin 100) (.fin 0) (.fin 0) (.fin 50) (.fin 50)).height = .fin drawH ∧
      drawW ≤ 50 ∧ drawH ≤ 50 ∧ drawW * 100 = drawH * 200 :=
  fit_inside_box_keeps_aspect 200 100 0 0 50 50 (by norm_num) (by norm_num) (by norm_num)
    (by norm_num)

/-- C3, amended: in exact rational arithmetic, for positive intrinsic sizes
and a positive box, the fit result is
itself a positive size of the asset's aspect ratio inside the box, every
such size `(w, h)` satisfies `w <= drawW` and `h <= drawH`, and the drawn
rectangle is centred in the box on both axes. -/
theorem fit_is_largest_and_centred (imgW imgH boxX boxY boxWidth boxHeight : ℚ)
    (hW : 0 < imgW) (hH : 0 < imgH) (hbw : 0 < boxWidth) (hbh : 0 < boxHeight) :
    ∃ drawX drawY drawW drawH : ℚ,
      fitImage (.fin imgW) (.fin imgH) (.fin boxX) (.fin boxY) (.fin boxWidth) (.fin boxHeight) =
        { x := .fin drawX, y := .fin drawY, width := .fin drawW, height := .fin drawH } ∧
      (0 < drawW ∧ 0 < drawH ∧ drawW * imgH = drawH * imgW ∧
        drawW ≤ boxWidth ∧ drawH ≤ boxHeight) ∧
      (∀ w h : ℚ, 0 < w → 0 < h → w * imgH = h * imgW → w ≤ boxWidth → h ≤ boxHeight →
        w ≤ drawW ∧ h ≤ drawH) ∧
      drawX - boxX = (boxX + boxWidth) - (drawX + drawW) ∧
      drawY - boxY = (boxY + boxHeight) - (drawY + drawH) := by
  rw [fitImage_fin _ _ _ _ _ _ hW.ne' hH.ne']
  by_cases hc : boxHeight < imgH / imgW * boxWidth
  · have h1 : boxHeight * imgW < imgH * boxWidth := by
      have := mul_lt_mul_of_pos_right hc hW
      rwa [div_mul_eq_mul_div, div_mul_cancel₀ _ hW.ne'] at this
    have h2 : imgW / imgH * boxHeight ≤ boxWidth := by
      rw [div_mul_eq_mul_div, div_le_iff₀ hH]
      nlinarith
    refine ⟨_, _, _, _, by rw [if_pos hc], ⟨by positivity, hbh, ?_, h2, le_refl _⟩, ?_, ?_, ?_⟩
    · field_simp
      ring
    · intro w h _ _ hr _ hhb
      refine ⟨?_, hhb⟩
      rw [div_mul_eq_mul_div, le_div_iff₀ hH, hr]
      nlinarith
    · ring
    · ring
  · have h1 : imgH / imgW * boxWidth ≤ boxHeight := not_lt.mp hc
    refine ⟨_, _, _, _, by rw [if_neg hc], ⟨hbw, by positivity, ?_, le_refl _, h1⟩, ?_, ?_, ?_⟩
    · field_simp
      ring
    · intro w h _ _ hr hwb _
      refine ⟨hwb, ?_⟩
      rw [div_mul_eq_mul_div, le_div_iff₀ hW, ← hr]
      nlinarith
    · ring
    · ring

/-- Witness for C3: a 200 x 100 asset in the 50 x 50 box at (10, 20). -/
theorem fit_is_largest_and_centred_witness :
    ∃ drawX drawY drawW drawH : ℚ,
      fitImage (.fin 200) (.fin 100) (.fin 10) (.fin 20) (.fin 50) (.fin 50) =
        { x := .fin drawX, y := .fin drawY, width := .fin drawW, height := .fin drawH } ∧
      (0 < drawW ∧ 0 < drawH ∧ drawW * 100 = drawH * 200 ∧ drawW ≤ 50 ∧ drawH ≤ 50) ∧
      (∀ w h : ℚ, 0 < w → 0 < h → w * 100 = h * 200 → w ≤ 50 → h ≤ 50 →
        w ≤ drawW ∧ h ≤ drawH) ∧
      drawX - 10 = (10 + 50) - (drawX + drawW) ∧
      drawY - 20 = (20 + 50) - (drawY + drawH) :=
  fit_is_largest_and_centred 200 100 10 20 50 50 (by norm_num) (by norm_num) (by norm_num)
    (by norm_num)

/-! ## Geometry transform -/

/-- The coercion `Number(v) || 0` leaves a finite number as it is. -/
theorem numberOrZero_fin (h : Host) (x : ℚ) : numberOrZero h (.num (.fin x)) = .fin x := by
  unfold numberOrZero toNumber
  by_cases hx : x = 0
  · simp [JsNum.truthy, hx]
  · simp [JsNum.truthy, hx]

/-- The transform on finite percentages and a finite page size with
non-zero divisor 100, in closed form. -/
theorem geometryTransform_fin (h : Host) (pw ph x y w hh : ℚ) (f : Field)
    (hx : f.xPercent = .num (.fin x)) (hy : f.yPercent = .num (.fin y))
    (hw : f.widthPercent = .num (.fin w)) (hhh : f.heightPercent = .num (.fin hh)) :
    geometryTransform h (.fin pw) (.fin ph) f =
      { boxX := .fin (x / 100 * pw), boxY := .fin (ph - y / 100 * ph - hh / 100 * ph),
        boxWidth := .fin (w / 100 * pw), boxHeight := .fin (hh / 100 * ph) } := by
  unfold geometryTransform
  simp [hx, hy, hw, hhh, numberOrZero_fin, JsNum.fin_div]

/-- C4: on a page of positive size the geometry transform is invertible:
re-deriving the percentages from the box it returns gives back the four
percentages of the field, exactly. -/
theorem geometry_transform_invertible (h : Host) (pw ph x y w hh : ℚ) (f : Field)
    (hpw : 0 < pw) (hph : 0 < ph)
    (hx : f.xPercent = .num (.fin x)) (hy : f.yPercent = .num (.fin y))
    (hw : f.widthPercent = .num (.fin w)) (hhh : f.heightPercent = .num (.fin hh)) :
    ∃ boxX boxY boxWidth boxHeight : ℚ,
      geometryTransform h (.fin pw) (.fin ph) f =
        { boxX := .fin boxX, boxY := .fin boxY, boxWidth := .fin boxWidth,
          boxHeight := .fin boxHeight } ∧
      boxX / pw * 100 = x ∧ boxWidth / pw * 100 = w ∧ boxHeight / ph * 100 = hh ∧
      (ph - boxY - boxHeight) / ph * 100 = y := by
  refine ⟨_, _, _, _, geometryTransform_fin h pw ph x y w hh f hx hy hw hhh, ?_, ?_, ?_, ?_⟩
  · field_simp
    ring
  · field_simp
    ring
  · field_simp
    ring
  · field_simp
    ring

/-- Witness for C4: the field (10, 10, 30, 10) on a 600 x 800 page. -/
theorem geometry_transform_invertible_witness :
    ∃ boxX boxY boxWidth boxHeight : ℚ,
      geometryTransform sampleHost (.fin 600) (.fin 800)
        { emptyField with xPercent := .num (.fin 10), yPercent := .num (.fin 10),
                          widthPercent := .num (.fin 30), heightPercent := .num (.fin 10) } =
        { boxX := .fin boxX, boxY := .fin boxY, boxWidth := .fin boxWidth,
          boxHeight := .fin boxHeight } ∧
      boxX / 600 * 100 = 10 ∧ boxWidth / 600 * 100 = 30 ∧ boxHeight / 800 * 100 = 10 ∧
      (800 - boxY - boxHeight) / 800 * 100 = 10 :=
  geometry_transform_invertible sampleHost 600 800 10 10 30 10 _ (by norm_num) (by norm_num)
    rfl rfl rfl rfl

/-! ## The skip of a zero-size box -/

/-- A zero percentage yields a falsy box side on every page size, finite or
not. -/
theorem JsNum.zero_percent_falsy (pw : JsNum) :
    ((JsNum.fin 0 / JsNum.fin 100) * pw).truthy = false := by
  rw [JsNum.fin_div 0 100 (by norm_num)]
  cases pw with
  | fin q => simp [JsNum.truthy]
  | pinf => show (JsNum.mul _ _).truthy = false; simp [JsNum.mul, JsNum.truthy]
  | ninf => show (JsNum.mul _ _).truthy = false; simp [JsNum.mul, JsNum.truthy]
  | nan => show (JsNum.mul _ _).truthy = false; simp [JsNum.mul, JsNum.truthy]

/-- A field whose width or height percentage is the number zero has a
skipped box. -/
theorem geometry_skipped_of_zero (h : Host) (pw ph : JsNum) (f : Field)
    (hz : f.widthPercent = .num (.fin 0) ∨ f.heightPercent = .num (.fin 0)) :
    (geometryTransform h pw ph f).skipped = true := by
  unfold Box.skipped geometryTransform
  rcases hz with hz | hz
  · simp [hz, numberOrZero_fin, JsNum.zero_percent_falsy]
  · simp [hz, numberOrZero_fin, JsNum.zero_percent_falsy]

/-- The read `pages[0]` on a document with a first page. -/
theorem arrayGet_zero (p : Page) (ps : List Page) :
    arrayGet (p :: ps) (.fin 0) = some (0, p) := by
  simp [arrayGet]

/-- On a document with at least one page the page of a field is always
resolved. -/
theorem resolvePage_isSome (p : Page) (ps : List Page) (f : Field) :
    ∃ idx page, resolvePage (p :: ps) f = some (idx, page) := by
  unfold resolvePage
  cases hq : arrayGet (p :: ps) (pageIndexOf f) with
  | some r => exact ⟨r.1, r.2, rfl⟩
  | none => exact ⟨0, p, arrayGet_zero p ps⟩

/-- On a document without pages no page is resolved. -/
theorem resolvePage_nil (f : Field) : resolvePage [] f = none := by
  unfold resolvePage arrayGet
  cases pageIndexOf f <;> simp

/-- On a document without pages the loop draws nothing. -/
theorem renderFields_nil_pages_draws (h : Host) (sig : Option PDFImage) (l : List FieldEntry) :
    (renderFields h [] sig l).draws = [] := by
  cases l with
  | nil => rfl
  | cons e es =>
    cases e with
    | null => simp [renderFields, processField]
    | obj f => simp [renderFields, processField, resolvePage_nil]

/-- The loop body on a field whose width or height percentage is zero. -/
theorem processField_zero_size (h : Host) (pages : List Page) (sig : Option PDFImage)
    (f : Field) (hz : f.widthPercent = .num (.fin 0) ∨ f.heightPercent = .num (.fin 0)) :
    processField h pages sig (.obj f) = if pages = [] then .error .typeError else .ok [] := by
  cases pages with
  | nil => simp [processField, resolvePage_nil]
  | cons p ps =>
    obtain ⟨idx, page, hr⟩ := resolvePage_isSome p ps f
    simp [processField, hr, geometry_skipped_of_zero h _ _ f hz]

/-- Drawing leaves the pages of the document, and their sizes, as loaded. -/
theorem renderedDocument_pages (pages : List Page) (draws : List DrawCmd) :
    (renderedDocument pages draws).map Prod.fst = pages := by
  unfold renderedDocument
  have key : ∀ (ds : List DrawCmd) (doc : List (Page × List DrawCmd)),
      (ds.foldl (fun doc c => doc.modify (fun pc => (pc.1, pc.2 ++ [c])) c.page) doc).map
        Prod.fst = doc.map Prod.fst := by
    intro ds
    induction ds with
    | nil => intro doc; rfl
    | cons c cs ih =>
      intro doc
      rw [List.foldl_cons, ih]
      apply List.ext_getElem?
      intro m
      rw [List.getElem?_map, List.getElem?_map, List.getElem?_modify]
      cases doc[m]? with
      | none => rfl
      | some a => by_cases hm : c.page = m <;> simp [hm]
  rw [key, List.map_map]
  simp [Function.comp_def]

/-- C5: a field whose width or height percentage is zero produces no draw
command (on a document with a page its loop body ends with no call; without
pages the page read fails before any call), the calls drawn for a list that
holds it are exactly those drawn for the list without it, with the same
outcome whenever the document has a page, and the rendered document keeps
the page count of the loaded one. -/
theorem zero_size_field_draws_nothing (h : Host) (pages : List Page) (sig : Option PDFImage)
    (before after : List FieldEntry) (f : Field)
    (hz : f.widthPercent = .num (.fin 0) ∨ f.heightPercent = .num (.fin 0)) :
    processField h pages sig (.obj f) = (if pages = [] then .error .typeError else .ok []) ∧
    (renderFields h pages sig (before ++ .obj f :: after)).draws =
      (renderFields h pages sig (before ++ after)).draws ∧
    (pages ≠ [] → renderFields h pages sig (before ++ .obj f :: after) =
      renderFields h pages sig (before ++ after)) ∧
    (renderedDocument pages (renderFields h pages sig (before ++ .obj f :: after)).draws).length =
      pages.length := by
  have hfull : pages ≠ [] → renderFields h pages sig (before ++ .obj f :: after) =
      renderFields h pages sig (before ++ after) := by
    intro hp
    induction before with
    | nil => simp [renderFields, processField_zero_size h pages sig f hz, hp]
    | cons e es ih =>
      rw [List.cons_append, List.cons_append, renderFields, renderFields, ih]
  refine ⟨processField_zero_size h pages sig f hz, ?_, hfull, ?_⟩
  · by_cases hp : pages = []
    · subst hp
      rw [renderFields_nil_pages_draws, renderFields_nil_pages_draws]
    · rw [hfull hp]
  · have := congrArg List.length (renderedDocument_pages pages
      (renderFields h pages sig (before ++ .obj f :: after)).draws)
    simpa using this

/-- Witness for C5: a zero-width text field between two radio fields on a
one-page document. -/
theorem zero_size_field_draws_nothing_witness :
    processField sampleHost onePage none (.obj zeroWidthText) =
      (if onePage = [] then .error .typeError else .ok []) ∧
    (renderFields sampleHost onePage none
      ([.obj sampleRadio] ++ .obj zeroWidthText :: [.obj sampleRadio])).draws =
      (renderFields sampleHost onePage none ([.obj sampleRadio] ++ [.obj sampleRadio])).draws ∧
    (onePage ≠ [] →
      renderFields sampleHost onePage none
        ([.obj sampleRadio] ++ .obj zeroWidthText :: [.obj sampleRadio]) =
      renderFields sampleHost onePage none ([.obj sampleRadio] ++ [.obj sampleRadio])) ∧
    (renderedDocument onePage (renderFields sampleHost onePage none
      ([.obj sampleRadio] ++ .obj zeroWidthText :: [.obj sampleRadio])).draws).length =
      onePage.length :=
  zero_size_field_draws_nothing sampleHost onePage none [.obj sampleRadio] [.obj sampleRadio]
    zeroWidthText (Or.inl rfl)

/-! ## Field dispatch -/

/-- The loop body once the page of the field is resolved: the field is
measured against that page and drawn at its position. -/
theorem processField_resolved (h : Host) (pages : List Page) (sig : Option PDFImage)
    (f : Field) (idx : Nat) (page : Page) (hr : resolvePage pages f = some (idx, page)) :
    processField h pages sig (.obj f) =
      if (geometryTransform h page.width page.height f).skipped then .ok []
      else renderField h sig idx (geometryTransform h page.width page.height f) f := by
  simp [processField, hr]

/-- A signature field without a signature image takes no branch of the
dispatch. -/
theorem renderField_signature_none (h : Host) (idx : Nat) (b : Box) (f : Field)
    (ht : f.type = .str "signature") : renderField h none idx b f = .ok [] := by
  simp [renderField, ht]

/-- The refutation of C6 as stated: on a document without pages a signature
field rendered with no signature asset ends the loop with a `TypeError`
(the page read of line 123), where zero fields end it without error. -/
theorem signature_field_error_without_pages :
    renderFields sampleHost [] none [.obj sampleSignature] =
      { draws := [], error := some .typeError } ∧
    renderFields sampleHost [] none [] = { draws := [], error := none } ∧
    renderFields sampleHost [] none [.obj sampleSignature] ≠ renderFields sampleHost [] none [] := by
  refine ⟨?_, rfl, ?_⟩
  · simp [renderFields, processField, resolvePage_nil]
  · simp [renderFields, processField, resolvePage_nil]

/-- C6, amended: on a document with at least one page and with no signature
asset, the loop over a single signature field, whatever its placement,
issues no draw call and raises no error, exactly as the loop over zero
fields. -/
theorem signature_field_without_asset_skipped (h : Host) (pages : List Page) (f : Field)
    (hp : pages ≠ []) (ht : f.type = .str "signature") :
    renderFields h pages none [.obj f] = renderFields h pages none [] ∧
    renderFields h pages none [.obj f] = { draws := [], error := none } := by
  have hproc : processField h pages none (.obj f) = .ok [] := by
    cases pages with
    | nil => exact absurd rfl hp
    | cons p ps =>
      obtain ⟨idx, page, hr⟩ := resolvePage_isSome p ps f
      rw [processField_resolved h _ none f idx page hr, renderField_signature_none h idx _ f ht]
      simp
  constructor <;> simp [renderFields, hproc]

/-- Witness for the amended C6: the sample signature field on the one-page
document. -/
theorem signature_field_without_asset_skipped_witness :
    renderFields sampleHost onePage none [.obj sampleSignature] =
      renderFields sampleHost onePage none [] ∧
    renderFields sampleHost onePage none [.obj sampleSignature] =
      { draws := [], error := none } :=
  signature_field_without_asset_skipped sampleHost onePage sampleSignature
    (by simp [onePage]) rfl

/-! ## Page resolution -/

/-- The read `pages[i]` at a position of the list. -/
theorem arrayGet_valid (pages : List Page) (i : Nat) (hi : i < pages.length) :
    arrayGet pages (.fin (i : ℚ)) = some (i, pages.get ⟨i, hi⟩) := by
  simp [arrayGet, List.getElem?_eq_getElem hi]

/-- The read `pages[n]` is defined only at a position of the list. -/
theorem arrayGet_some_iff (pages : List Page) (n : JsNum) (r : Nat × Page)
    (hr : arrayGet pages n = some r) : r.1 < pages.length ∧ n = .fin (r.1 : ℚ) := by
  cases n with
  | fin q =>
    simp only [arrayGet] at hr
    by_cases hq : q.den = 1 ∧ 0 ≤ q.num
    · rw [if_pos hq] at hr
      cases hg : pages.get? q.num.toNat with
      | none => rw [hg] at hr; simp at hr
      | some pg =>
        rw [hg] at hr
        simp only [Option.map_some', Option.some.injEq] at hr
        subst hr
        refine ⟨(List.get?_eq_some.mp hg).1, ?_⟩
        have h1 : ((q.num : ℤ) : ℚ) = q := (Rat.den_eq_one_iff q).mp hq.1
        have h2 : ((q.num.toNat : ℕ) : ℚ) = ((q.num : ℤ) : ℚ) := by
          have h3 : ((q.num.toNat : ℕ) : ℤ) = q.num := Int.toNat_of_nonneg hq.2
          exact_mod_cast congrArg (fun z : ℤ => (z : ℚ)) h3
        simp only [h2, h1]
    · rw [if_neg hq] at hr
      exact absurd hr (by simp)
  | pinf => simp [arrayGet] at hr
  | ninf => simp [arrayGet] at hr
  | nan => simp [arrayGet] at hr

/-- A page index that is not a position of the page collection resolves to
the first page. -/
theorem resolvePage_fallback (p : Page) (ps : List Page) (f : Field)
    (hinv : ¬ ∃ i : Nat, i < (p :: ps).length ∧ f.page = .num (.fin (i : ℚ))) :
    resolvePage (p :: ps) f = some (0, p) := by
  unfold resolvePage
  cases hfp : f.page with
  | num n =>
    have hpi : pageIndexOf f = n := by simp [pageIndexOf, hfp]
    rw [hpi]
    cases hq : arrayGet (p :: ps) n with
    | none => simp [arrayGet_zero]
    | some r =>
      exfalso
      obtain ⟨hlt, hn⟩ := arrayGet_some_iff _ _ r hq
      exact hinv ⟨r.1, hlt, by rw [hfp, hn]⟩
  | undefined =>
    have hpi : pageIndexOf f = .fin 0 := by simp [pageIndexOf, hfp]
    rw [hpi, arrayGet_zero]
  | null =>
    have hpi : pageIndexOf f = .fin 0 := by simp [pageIndexOf, hfp]
    rw [hpi, arrayGet_zero]
  | bool b =>
    have hpi : pageIndexOf f = .fin 0 := by simp [pageIndexOf, hfp]
    rw [hpi, arrayGet_zero]
  | str t =>
    have hpi : pageIndexOf f = .fin 0 := by simp [pageIndexOf, hfp]
    rw [hpi, arrayGet_zero]
  | object o =>
    have hpi : pageIndexOf f = .fin 0 := by simp [pageIndexOf, hfp]
    rw [hpi, arrayGet_zero]

/-- Every call of the dispatch is drawn on the page position it is given. -/
theorem renderField_page (h : Host) (sig : Option PDFImage) (idx : Nat) (b : Box) (f : Field)
    (cmds : List DrawCmd) (hc : renderField h sig idx b f = .ok cmds) :
    ∀ c ∈ cmds, c.page = idx := by
  unfold renderField at hc
  split at hc
  · cases hc; simp [DrawCmd.page]
  · split at hc
    · split at hc
      · cases hc
      · cases hc; simp
      · cases hc; simp [DrawCmd.page]
    · split at hc
      · cases hc; simp [DrawCmd.page]
      · split at hc
        · cases hc; simp [DrawCmd.page]
        · cases hc; simp

/-- Every call of the loop body is drawn on the page resolved for the field. -/
theorem processField_page (h : Host) (pages : List Page) (sig : Option PDFImage) (f : Field)
    (idx : Nat) (page : Page) (hr : resolvePage pages f = some (idx, page))
    (cmds : List DrawCmd) (hc : processField h pages sig (.obj f) = .ok cmds) :
    ∀ c ∈ cmds, c.page = idx := by
  rw [processField_resolved h pages sig f idx page hr] at hc
  split at hc
  · cases hc; simp
  · exact renderField_page h sig idx _ f cmds hc

/-- C7: on a document with at least one page, a field whose page index is a
position `i` of the page collection is measured against page `i` and drawn
there; a field whose page index is anything else (too large, negative, not
an integer, an infinity or NaN, or not a number at all) resolves to page 0
without error, is measured against page 0 and drawn there, with the very
outcome of the same field carrying the index 0. -/
theorem page_index_fallback (h : Host) (pages : List Page) (sig : Option PDFImage) (f : Field)
    (hp : pages ≠ []) :
    (∀ (i : Nat) (hi : i < pages.length), f.page = .num (.fin (i : ℚ)) →
      resolvePage pages f = some (i, pages.get ⟨i, hi⟩) ∧
      processField h pages sig (.obj f) =
        (if (geometryTransform h (pages.get ⟨i, hi⟩).width (pages.get ⟨i, hi⟩).height f).skipped
          then .ok []
          else renderField h sig i
            (geometryTransform h (pages.get ⟨i, hi⟩).width (pages.get ⟨i, hi⟩).height f) f) ∧
      ∀ cmds, processField h pages sig (.obj f) = .ok cmds → ∀ c ∈ cmds, c.page = i) ∧
    ((¬ ∃ i : Nat, i < pages.length ∧ f.page = .num (.fin (i : ℚ))) →
      resolvePage pages f = some (0, pages.head hp) ∧
      processField h pages sig (.obj f) =
        (if (geometryTransform h (pages.head hp).width (pages.head hp).height f).skipped
          then .ok []
          else renderField h sig 0
            (geometryTransform h (pages.head hp).width (pages.head hp).height f) f) ∧
      processField h pages sig (.obj f) =
        processField h pages sig (.obj { f with page := .num (.fin 0) }) ∧
      ∀ cmds, processField h pages sig (.obj f) = .ok cmds → ∀ c ∈ cmds, c.page = 0) := by
  constructor
  · intro i hi hf
    have hr : resolvePage pages f = some (i, pages.get ⟨i, hi⟩) := by
      simp only [resolvePage, pageIndexOf, hf, arrayGet_valid pages i hi]
    exact ⟨hr, processField_resolved h pages sig f i _ hr,
      fun cmds hc => processField_page h pages sig f i _ hr cmds hc⟩
  · intro hinv
    cases pages with
    | nil => exact absurd rfl hp
    | cons p ps =>
      have hr : resolvePage (p :: ps) f = some (0, p) := resolvePage_fallback p ps f hinv
      have hr0 : resolvePage (p :: ps) { f with page := .num (.fin 0) } = some (0, p) := by
        simp [resolvePage, pageIndexOf, arrayGet_zero]
      refine ⟨hr, processField_resolved h _ sig f 0 p hr, ?_,
        fun cmds hc => processField_page h _ sig f 0 p hr cmds hc⟩
      rw [processField_resolved h _ sig f 0 p hr, processField_resolved h _ sig _ 0 p hr0]
      rfl

/-- The index 5 is not a position of the two-page document. -/
theorem five_not_a_page_of_twoPages :
    ¬ ∃ i : Nat, i < twoPages.length ∧
      (radioOnPage (.num (.fin 5))).page = .num (.fin (i : ℚ)) := by
  rintro ⟨i, hi, he⟩
  have h5 : (5 : ℚ) = (i : ℚ) := by
    simp only [radioOnPage] at he
    injection he with he
    injection he
  have h6 : i = 5 := by exact_mod_cast h5.symm
  subst h6
  simp [twoPages] at hi

/-- Witness for C7: on the two-page document the radio field with page
index 1 is resolved to page 1, and the one with page index 5 falls back to
page 0 and is rendered as the same field with index 0. -/
theorem page_index_fallback_witness :
    resolvePage twoPages (radioOnPage (.num (.fin ((1 : Nat) : ℚ)))) =
      some (1, twoPages.get ⟨1, by simp [twoPages]⟩) ∧
    resolvePage twoPages (radioOnPage (.num (.fin 5))) =
      some (0, twoPages.head (by simp [twoPages])) ∧
    processField sampleHost twoPages none (.obj (radioOnPage (.num (.fin 5)))) =
      processField sampleHost twoPages none
        (.obj { radioOnPage (.num (.fin 5)) with page := .num (.fin 0) }) :=
  ⟨((page_index_fallback sampleHost twoPages none (radioOnPage (.num (.fin ((1 : Nat) : ℚ))))
      (by simp [twoPages])).1 1 (by simp [twoPages]) rfl).1,
   ((page_index_fallback sampleHost twoPages none (radioOnPage (.num (.fin 5)))
      (by simp [twoPages])).2 five_not_a_page_of_twoPages).1,
   ((page_index_fallback sampleHost twoPages none (radioOnPage (.num (.fin 5)))
      (by simp [twoPages])).2 five_not_a_page_of_twoPages).2.2.1⟩

/-! ## Radio fields -/

/-- The page of the sample fields without a page attribute on the one-page
document. -/
theorem resolvePage_onePage (f : Field) (hf : f.page = .undefined) :
    resolvePage onePage f = some (0, { width := .fin 600, height := .fin 800 }) := by
  simp [resolvePage, pageIndexOf, hf, onePage, arrayGet]

/-- The box of the sample radio field on the 600 x 800 page. -/
theorem geometry_sampleRadio (c : JsVal) :
    geometryTransform sampleHost (.fin 600) (.fin 800) { sampleRadio with checked := c } =
      { boxX := .fin 0, boxY := .fin 760, boxWidth := .fin 30, boxHeight := .fin 40 } := by
  simp [geometryTransform, numberOrZero, toNumber, JsNum.truthy, sampleRadio, emptyField,
    JsNum.fin_div]
  norm_num

/-- C8, as the code behaves: a radio field with a non-zero box issues one
`drawCircle` call at the centre of the box with radius a quarter of the
shorter side, and the call is the same for `checked = true` and for
`checked = false`: the two glyphs are not different. -/
theorem radio_glyph_ignores_checked (h : Host) (pages : List Page) (sig : Option PDFImage)
    (f : Field) (idx : Nat) (page : Page) (ht : f.type = .str "radio")
    (hr : resolvePage pages f = some (idx, page))
    (hb : (geometryTransform h page.width page.height f).skipped = false) :
    processField h pages sig (.obj { f with checked := .bool true }) =
      .ok [.drawCircle idx
        ((geometryTransform h page.width page.height f).boxX +
          (geometryTransform h page.width page.height f).boxWidth / .fin 2)
        ((geometryTransform h page.width page.height f).boxY +
          (geometryTransform h page.width page.height f).boxHeight / .fin 2)
        (JsNum.min (geometryTransform h page.width page.height f).boxWidth
          (geometryTransform h page.width page.height f).boxHeight / .fin 4)
        (.fin 1)] ∧
    processField h pages sig (.obj { f with checked := .bool false }) =
      processField h pages sig (.obj { f with checked := .bool true }) := by
  have hr1 : resolvePage pages { f with checked := .bool true } = some (idx, page) := hr
  have hg : geometryTransform h page.width page.height { f with checked := .bool true } =
      geometryTransform h page.width page.height f := rfl
  refine ⟨?_, rfl⟩
  rw [processField_resolved h pages sig _ idx page hr1, hg, hb]
  simp [renderField, ht]

/-- Witness for C8: the sample radio field on the one-page document draws
the circle of radius 15/2 centred at (15, 780), checked or not. -/
theorem radio_glyph_ignores_checked_witness :
    processField sampleHost onePage none (.obj { sampleRadio with checked := .bool true }) =
      .ok [.drawCircle 0
        ((geometryTransform sampleHost (.fin 600) (.fin 800) sampleRadio).boxX +
          (geometryTransform sampleHost (.fin 600) (.fin 800) sampleRadio).boxWidth / .fin 2)
        ((geometryTransform sampleHost (.fin 600) (.fin 800) sampleRadio).boxY +
          (geometryTransform sampleHost (.fin 600) (.fin 800) sampleRadio).boxHeight / .fin 2)
        (JsNum.min (geometryTransform sampleHost (.fin 600) (.fin 800) sampleRadio).boxWidth
          (geometryTransform sampleHost (.fin 600) (.fin 800) sampleRadio).boxHeight / .fin 4)
        (.fin 1)] ∧
    processField sampleHost onePage none (.obj { sampleRadio with checked := .bool false }) =
      processField sampleHost onePage none (.obj { sampleRadio with checked := .bool true }) :=
  radio_glyph_ignores_checked sampleHost onePage none sampleRadio 0
    { width := .fin 600, height := .fin 800 } rfl (resolvePage_onePage sampleRadio rfl)
    (by
      have hg := geometry_sampleRadio sampleRadio.checked
      have he : ({ sampleRadio with checked := sampleRadio.checked } : Field) = sampleRadio := rfl
      rw [he] at hg
      rw [hg]
      simp [Box.skipped, JsNum.truthy])

/-! ## Image and signature fields -/

/-- The fit of an asset of intrinsic width zero and positive height in a
box of positive width: `imgH / imgW` is `Infinity`, the height test
succeeds, and the drawn size is `0 x boxHeight`. -/
theorem fitImage_zero_width (imgH boxX boxY boxWidth boxHeight : ℚ)
    (hH : 0 < imgH) (hbw : 0 < boxWidth) :
    fitImage (.fin 0) (.fin imgH) (.fin boxX) (.fin boxY) (.fin boxWidth) (.fin boxHeight) =
      { x := .fin (boxX + boxWidth / 2), y := .fin boxY, width := .fin 0,
        height := .fin boxHeight } := by
  have hd : JsNum.fin imgH / JsNum.fin 0 = JsNum.pinf := by
    show JsNum.div _ _ = _
    simp [JsNum.div, hH.ne', JsNum.infOfSign, not_lt.mpr hH.le]
  have hm : JsNum.pinf * JsNum.fin boxWidth = JsNum.pinf := by
    show JsNum.mul _ _ = _
    simp [JsNum.mul, hbw.ne', JsNum.infOfSign, JsNum.isNeg, not_lt.mpr hbw.le]
  have hg : JsNum.gt JsNum.pinf (JsNum.fin boxHeight) = true := rfl
  unfold fitImage
  simp only [hd, hm, hg, if_true, JsNum.fin_div _ _ hH.ne', JsNum.fin_mul, JsNum.fin_sub,
    JsNum.fin_div_two, JsNum.fin_add]
  simp

/-- The signature branch: with a signature image, a signature field with a
non-skipped box issues one `drawImage` call of that image. -/
theorem renderField_signature_some (h : Host) (img : PDFImage) (idx : Nat) (b : Box) (f : Field)
    (ht : f.type = .str "signature") :
    renderField h (some img) idx b f =
      .ok [.drawImage idx img
        (fitImage img.width img.height b.boxX b.boxY b.boxWidth b.boxHeight)] := by
  simp [renderField, ht]

/-- The image branch, in terms of the image resolved for the field. -/
theorem renderField_image (h : Host) (sig : Option PDFImage) (idx : Nat) (b : Box) (f : Field)
    (ht : f.type = .str "image") :
    renderField h sig idx b f =
      match fieldImage h sig f with
      | .error e => .error e
      | .ok none => .ok []
      | .ok (some img) =>
        .ok [.drawImage idx img
          (fitImage img.width img.height b.boxX b.boxY b.boxWidth b.boxHeight)] := by
  unfold renderField
  split
  · rename_i heq
    rw [ht] at heq
    simp at heq
  · rw [if_pos ht]

/-- The refutation of C9 as stated: with a signature asset of intrinsic
size 0 x 100, the sample signature field on the one-page document raises
no error and issues a `drawImage` call, of size 0 x 48. -/
theorem drawImage_issued_for_zero_width_signature :
    processField sampleHost onePage (some zeroWidthImage) (.obj sampleSignature) =
      .ok [.drawImage 0 zeroWidthImage
        { x := .fin 120, y := .fin 672, width := .fin 0, height := .fin 48 }] := by
  have hr : resolvePage onePage sampleSignature =
      some (0, { width := .fin 600, height := .fin 800 }) := by
    simp [resolvePage, pageIndexOf, sampleSignature, onePage, arrayGet]
  have hg : geometryTransform sampleHost (.fin 600) (.fin 800) sampleSignature =
      { boxX := .fin 60, boxY := .fin 672, boxWidth := .fin 120, boxHeight := .fin 48 } := by
    rw [geometryTransform_fin sampleHost 600 800 10 10 20 6 sampleSignature rfl rfl rfl rfl]
    norm_num
  rw [processField_resolved _ _ _ _ 0 _ hr, hg]
  simp only [Box.skipped, JsNum.truthy]
  rw [renderField_signature_some _ _ _ _ _ rfl]
  simp only [zeroWidthImage]
  rw [fitImage_zero_width 100 60 672 120 48 (by norm_num) (by norm_num)]
  norm_num

/-- The loop body of a signature or image field whose asset is resolved and
whose box is not skipped: one `drawImage` call of the asset, sized by the
fit. -/
theorem processField_asset (h : Host) (pages : List Page) (sig : Option PDFImage)
    (f : Field) (idx : Nat) (page : Page) (img : PDFImage)
    (hr : resolvePage pages f = some (idx, page))
    (hb : (geometryTransform h page.width page.height f).skipped = false)
    (hsrc : (f.type = .str "signature" ∧ sig = some img) ∨
      (f.type = .str "image" ∧ fieldImage h sig f = .ok (some img))) :
    processField h pages sig (.obj f) =
      .ok [.drawImage idx img
        (fitImage img.width img.height
          (geometryTransform h page.width page.height f).boxX
          (geometryTransform h page.width page.height f).boxY
          (geometryTransform h page.width page.height f).boxWidth
          (geometryTransform h page.width page.height f).boxHeight)] := by
  rw [processField_resolved h pages sig f idx page hr, hb]
  rcases hsrc with ⟨ht, hs⟩ | ⟨ht, hs⟩
  · subst hs
    simp [renderField_signature_some h img idx _ f ht]
  · simp [renderField_image h sig idx _ f ht, hs]

/-- Zero is a double. -/
theorem JsNum.toDouble_zero : (JsNum.fin 0).toDouble = JsNum.fin 0 := by
  simp [JsNum.toDouble]

/-- The size of the fit in doubles for an asset of intrinsic width zero and
positive height in a box of positive width: `0 x boxHeight`, with no
rounding involved. -/
theorem fitImageDouble_zero_width (imgH boxX boxY boxWidth boxHeight : ℚ)
    (hH : 0 < imgH) (hbw : 0 < boxWidth) :
    (fitImageDouble (.fin 0) (.fin imgH) (.fin boxX) (.fin boxY) (.fin boxWidth)
      (.fin boxHeight)).width = .fin 0 ∧
    (fitImageDouble (.fin 0) (.fin imgH) (.fin boxX) (.fin boxY) (.fin boxWidth)
      (.fin boxHeight)).height = .fin boxHeight := by
  have hd : JsNum.fin imgH / JsNum.fin 0 = JsNum.pinf := by
    show JsNum.div _ _ = _
    simp [JsNum.div, hH.ne', JsNum.infOfSign, not_lt.mpr hH.le]
  have hm : JsNum.pinf * JsNum.fin boxWidth = JsNum.pinf := by
    show JsNum.mul _ _ = _
    simp [JsNum.mul, hbw.ne', JsNum.infOfSign, JsNum.isNeg, not_lt.mpr hbw.le]
  have hp : JsNum.pinf.toDouble = JsNum.pinf := rfl
  have hg : JsNum.gt JsNum.pinf (JsNum.fin boxHeight) = true := rfl
  have hz : JsNum.fin 0 / JsNum.fin imgH = JsNum.fin 0 := by
    rw [JsNum.fin_div _ _ hH.ne']
    simp
  have hz2 : JsNum.fin 0 * JsNum.fin boxHeight = JsNum.fin 0 := by
    rw [JsNum.fin_mul]
    simp
  unfold fitImageDouble
  simp only [hd, hp, hm, hg, if_true, hz, JsNum.toDouble_zero, hz2]
  exact ⟨trivial, trivial⟩

/-- C9, amended: a signature or image field whose resolved asset has
intrinsic width zero and a positive finite height, on a box of positive
finite width and height, raises no error and issues exactly one `drawImage`
call of that asset with finite arguments: width 0 and height `boxHeight`,
at `x = boxX + boxWidth / 2` and `y = boxY` in exact arithmetic; the size
`0 x boxHeight` is the same when every operation is rounded to a double. -/
theorem zero_width_asset_drawn_zero_wide (h : Host) (pages : List Page)
    (sig : Option PDFImage) (f : Field) (idx : Nat) (page : Page) (img : PDFImage)
    (imgH boxX boxY boxWidth boxHeight : ℚ)
    (hr : resolvePage pages f = some (idx, page))
    (hsrc : (f.type = .str "signature" ∧ sig = some img) ∨
      (f.type = .str "image" ∧ fieldImage h sig f = .ok (some img)))
    (hw : img.width = .fin 0) (hih : img.height = .fin imgH) (hH : 0 < imgH)
    (hgeo : geometryTransform h page.width page.height f =
      { boxX := .fin boxX, boxY := .fin boxY, boxWidth := .fin boxWidth,
        boxHeight := .fin boxHeight })
    (hbw : 0 < boxWidth) (hbh : 0 < boxHeight) :
    processField h pages sig (.obj f) =
      .ok [.drawImage idx img
        { x := .fin (boxX + boxWidth / 2), y := .fin boxY, width := .fin 0,
          height := .fin boxHeight }] ∧
    (fitImageDouble (.fin 0) (.fin imgH) (.fin boxX) (.fin boxY) (.fin boxWidth)
      (.fin boxHeight)).width = .fin 0 ∧
    (fitImageDouble (.fin 0) (.fin imgH) (.fin boxX) (.fin boxY) (.fin boxWidth)
      (.fin boxHeight)).height = .fin boxHeight := by
  have hb : (geometryTransform h page.width page.height f).skipped = false := by
    rw [hgeo]
    simp [Box.skipped, JsNum.truthy, hbw.ne', hbh.ne']
  refine ⟨?_, fitImageDouble_zero_width imgH boxX boxY boxWidth boxHeight hH hbw⟩
  rw [processField_asset h pages sig f idx page img hr hb hsrc, hw, hih, hgeo,
    fitImage_zero_width imgH boxX boxY boxWidth boxHeight hH hbw]

/-- Witness for the amended C9: the signature asset of size 0 x 100 on the
sample signature field. -/
theorem zero_width_asset_drawn_zero_wide_witness :
    processField sampleHost onePage (some zeroWidthImage) (.obj sampleSignature) =
      .ok [.drawImage 0 zeroWidthImage
        { x := .fin (60 + 120 / 2), y := .fin 672, width := .fin 0, height := .fin 48 }] ∧
    (fitImageDouble (.fin 0) (.fin 100) (.fin 60) (.fin 672) (.fin 120) (.fin 48)).width =
      .fin 0 ∧
    (fitImageDouble (.fin 0) (.fin 100) (.fin 60) (.fin 672) (.fin 120) (.fin 48)).height =
      .fin 48 :=
  zero_width_asset_drawn_zero_wide sampleHost onePage (some zeroWidthImage) sampleSignature 0
    { width := .fin 600, height := .fin 800 } zeroWidthImage 100 60 672 120 48
    (by simp [resolvePage, pageIndexOf, sampleSignature, onePage, arrayGet])
    (Or.inl ⟨rfl, rfl⟩) rfl rfl (by norm_num)
    (by
      rw [geometryTransform_fin sampleHost 600 800 10 10 20 6 sampleSignature rfl rfl rfl rfl]
      norm_num)
    (by norm_num) (by norm_num)

/-- The search `indexOf(pat) !== -1` succeeds exactly when the pattern
occurs as a run of consecutive characters. -/
theorem hasSubstr_iff (pat l : List Char) : hasSubstr pat l = true ↔ pat <:+: l := by
  induction l with
  | nil =>
    cases pat with
    | nil => simp [hasSubstr]
    | cons p ps => simp [hasSubstr]
  | cons c cs ih =>
    rw [hasSubstr, Bool.or_eq_true, ih, List.infix_cons_iff, List.isPrefixOf_iff_prefix]

/-- The format test: the payload names the MIME type `image/jpeg` or
`image/jpg` somewhere. -/
theorem isJpgPayload_iff (s : String) :
    isJpgPayload s = true ↔
      ("image/jpeg".toList <:+: s.toList ∨ "image/jpg".toList <:+: s.toList) := by
  rw [isJpgPayload, Bool.or_eq_true, hasSubstr_iff, hasSubstr_iff]

/-- A payload without a comma is handed on whole. -/
theorem stripDataUrl_no_comma (s : String) (hs : ',' ∉ s.toList) : stripDataUrl s = s := by
  have hi : s.toList.indexOf ',' = s.toList.length := List.indexOf_eq_length.mpr hs
  show (if s.toList.indexOf ',' < s.toList.length then
      String.mk (s.toList.drop (s.toList.indexOf ',' + 1)) else s) = s
  rw [hi, if_neg (lt_irrefl _)]

/-- Of a payload with a comma, what follows the first comma is handed on. -/
theorem stripDataUrl_comma (head body : List Char) (hh : ',' ∉ head) :
    stripDataUrl (String.mk (head ++ ',' :: body)) = String.mk body := by
  unfold stripDataUrl
  have hi : (head ++ ',' :: body).indexOf ',' = head.length := by
    rw [List.indexOf_append_of_not_mem hh, List.indexOf_cons_self, Nat.add_zero]
  have hl : head.length < (head ++ ',' :: body).length := by
    simp
  have hd : (head ++ ',' :: body).drop (head.length + 1) = body := by
    rw [← List.drop_drop, List.drop_left]
    rfl
  show (if (head ++ ',' :: body).indexOf ',' < (head ++ ',' :: body).length then
      String.mk ((head ++ ',' :: body).drop ((head ++ ',' :: body).indexOf ',' + 1))
    else String.mk (head ++ ',' :: body)) = String.mk body
  rw [hi, if_pos hl, hd]

/-- C10: an image field with a non-zero box whose own payload is a
non-empty string draws the image the codec embeds from that payload,
whether or not a shared signature image exists: the JPEG embedder when the
payload names `image/jpeg` or `image/jpg`, the PNG embedder otherwise,
applied to the base64 decoding of what follows the first comma (of the
whole payload when it has no comma); an embedder's error ends the field.
Otherwise it draws the shared signature image when there is one, and issues
no call and raises no error when there is none. -/
theorem image_field_source (h : Host) (pages : List Page) (sig : Option PDFImage)
    (f : Field) (idx : Nat) (page : Page) (ht : f.type = .str "image")
    (hr : resolvePage pages f = some (idx, page))
    (hb : (geometryTransform h page.width page.height f).skipped = false) :
    (∀ (s : String) (img : PDFImage), f.imageData = .str s → s ≠ "" →
      (if isJpgPayload s then h.embedJpg (h.fromBase64 (stripDataUrl s))
        else h.embedPng (h.fromBase64 (stripDataUrl s))) = .ok img →
      processField h pages sig (.obj f) =
        .ok [.drawImage idx img
          (fitImage img.width img.height
            (geometryTransform h page.width page.height f).boxX
            (geometryTransform h page.width page.height f).boxY
            (geometryTransform h page.width page.height f).boxWidth
            (geometryTransform h page.width page.height f).boxHeight)]) ∧
    (∀ (s : String) (e : JsError), f.imageData = .str s → s ≠ "" →
      (if isJpgPayload s then h.embedJpg (h.fromBase64 (stripDataUrl s))
        else h.embedPng (h.fromBase64 (stripDataUrl s))) = .error e →
      processField h pages sig (.obj f) = .error e) ∧
    (∀ s : String, isJpgPayload s = true ↔
      ("image/jpeg".toList <:+: s.toList ∨ "image/jpg".toList <:+: s.toList)) ∧
    (∀ head body : List Char, ',' ∉ head →
      stripDataUrl (String.mk (head ++ ',' :: body)) = String.mk body) ∧
    (∀ s : String, ',' ∉ s.toList → stripDataUrl s = s) ∧
    ((¬ ∃ s : String, f.imageData = .str s ∧ s ≠ "") →
      (∀ a : PDFImage, sig = some a →
        processField h pages sig (.obj f) =
          .ok [.drawImage idx a
            (fitImage a.width a.height
              (geometryTransform h page.width page.height f).boxX
              (geometryTransform h page.width page.height f).boxY
              (geometryTransform h page.width page.height f).boxWidth
              (geometryTransform h page.width page.height f).boxHeight)]) ∧
      (sig = none → processField h pages sig (.obj f) = .ok [])) := by
  have hp : processField h pages sig (.obj f) =
      renderField h sig idx (geometryTransform h page.width page.height f) f := by
    rw [processField_resolved h pages sig f idx page hr, hb]
    simp
  have hembed : ∀ s : String, embedImage h s =
      (if isJpgPayload s then h.embedJpg (h.fromBase64 (stripDataUrl s))
        else h.embedPng (h.fromBase64 (stripDataUrl s))) := fun _ => rfl
  rw [hp, renderField_image h sig idx _ f ht]
  refine ⟨?_, ?_, isJpgPayload_iff, stripDataUrl_comma, stripDataUrl_no_comma, ?_⟩
  · intro s img hs hne he
    rw [← hembed] at he
    simp [fieldImage, hs, JsVal.truthy, hne, he]
  · intro s e hs hne he
    rw [← hembed] at he
    simp [fieldImage, hs, JsVal.truthy, hne, he]
  · intro hno
    have hfi : fieldImage h sig f = .ok sig := by
      unfold fieldImage
      cases hd : f.imageData with
      | str s =>
        have hs : s = "" := by
          by_contra hne
          exact hno ⟨s, hd, hne⟩
        simp [JsVal.truthy, hs]
      | undefined => rfl
      | null => rfl
      | bool b => rfl
      | num n => rfl
      | object o => rfl
    rw [hfi]
    constructor
    · intro a ha
      subst ha
      rfl
    · intro hn
      subst hn
      rfl

/-- The box of the sample image field on the 600 x 800 page. -/
theorem geometry_imageField (d : JsVal) :
    geometryTransform sampleHost (.fin 600) (.fin 800) (imageField d) =
      { boxX := .fin 0, boxY := .fin 720, boxWidth := .fin 120, boxHeight := .fin 80 } := by
  simp [geometryTransform, numberOrZero, toNumber, JsNum.truthy, imageField, emptyField,
    JsNum.fin_div]
  norm_num

/-- The box of the sample image field is not skipped. -/
theorem imageField_not_skipped (d : JsVal) :
    (geometryTransform sampleHost (.fin 600) (.fin 800) (imageField d)).skipped = false := by
  rw [geometry_imageField]
  simp [Box.skipped, JsNum.truthy]

/-- The box of the sample image field under the host that records the
payload. -/
theorem imageField_not_skipped_payloadHost (d : JsVal) :
    (geometryTransform payloadHost (.fin 600) (.fin 800) (imageField d)).skipped = false := by
  have hg : geometryTransform payloadHost (.fin 600) (.fin 800) (imageField d) =
      { boxX := .fin 0, boxY := .fin 720, boxWidth := .fin 120, boxHeight := .fin 80 } := by
    simp [geometryTransform, numberOrZero, toNumber, JsNum.truthy, imageField, emptyField,
      JsNum.fin_div]
    norm_num
  rw [hg]
  simp [Box.skipped, JsNum.truthy]

/-- Witness for C10, on a host whose embedders record the bytes they are
given, with a shared signature image present: the image field with the PNG
data URL of payload "AAAA" draws the PNG embedded from those 4 bytes, the
one with the JPEG data URL of payload "AAAAAA" the JPEG embedded from those
6 bytes; the image field with an empty payload draws the shared image; with
neither, nothing is drawn and no error is raised. -/
theorem image_field_source_witness :
    processField payloadHost onePage (some sharedSignature)
        (.obj (imageField (.str "data:image/png;base64,AAAA"))) =
      .ok [.drawImage 0 { ref := 4, width := .fin 200, height := .fin 100 }
        (fitImage (.fin 200) (.fin 100)
          (geometryTransform payloadHost (.fin 600) (.fin 800)
            (imageField (.str "data:image/png;base64,AAAA"))).boxX
          (geometryTransform payloadHost (.fin 600) (.fin 800)
            (imageField (.str "data:image/png;base64,AAAA"))).boxY
          (geometryTransform payloadHost (.fin 600) (.fin 800)
            (imageField (.str "data:image/png;base64,AAAA"))).boxWidth
          (geometryTransform payloadHost (.fin 600) (.fin 800)
            (imageField (.str "data:image/png;base64,AAAA"))).boxHeight)] ∧
    processField payloadHost onePage (some sharedSignature)
        (.obj (imageField (.str "data:image/jpeg;base64,AAAAAA"))) =
      .ok [.drawImage 0 { ref := 1006, width := .fin 100, height := .fin 100 }
        (fitImage (.fin 100) (.fin 100)
          (geometryTransform payloadHost (.fin 600) (.fin 800)
            (imageField (.str "data:image/jpeg;base64,AAAAAA"))).boxX
          (geometryTransform payloadHost (.fin 600) (.fin 800)
            (imageField (.str "data:image/jpeg;base64,AAAAAA"))).boxY
          (geometryTransform payloadHost (.fin 600) (.fin 800)
            (imageField (.str "data:image/jpeg;base64,AAAAAA"))).boxWidth
          (geometryTransform payloadHost (.fin 600) (.fin 800)
            (imageField (.str "data:image/jpeg;base64,AAAAAA"))).boxHeight)] ∧
    processField sampleHost onePage (some sharedSignature) (.obj (imageField (.str ""))) =
      .ok [.drawImage 0 sharedSignature
        (fitImage sharedSignature.width sharedSignature.height
          (geometryTransform sampleHost (.fin 600) (.fin 800) (imageField (.str ""))).boxX
          (geometryTransform sampleHost (.fin 600) (.fin 800) (imageField (.str ""))).boxY
          (geometryTransform sampleHost (.fin 600) (.fin 800) (imageField (.str ""))).boxWidth
          (geometryTransform sampleHost (.fin 600) (.fin 800)
            (imageField (.str ""))).boxHeight)] ∧
    processField sampleHost onePage none (.obj (imageField .undefined)) = .ok [] :=
  ⟨(image_field_source payloadHost onePage (some sharedSignature)
      (imageField (.str "data:image/png;base64,AAAA")) 0 { width := .fin 600, height := .fin 800 }
      rfl (resolvePage_onePage _ rfl) (imageField_not_skipped_payloadHost _)).1
      "data:image/png;base64,AAAA" { ref := 4, width := .fin 200, height := .fin 100 } rfl
      (by decide) rfl,
   (image_field_source payloadHost onePage (some sharedSignature)
      (imageField (.str "data:image/jpeg;base64,AAAAAA")) 0
      { width := .fin 600, height := .fin 800 }
      rfl (resolvePage_onePage _ rfl) (imageField_not_skipped_payloadHost _)).1
      "data:image/jpeg;base64,AAAAAA" { ref := 1006, width := .fin 100, height := .fin 100 } rfl
      (by decide) rfl,
   ((image_field_source sampleHost onePage (some sharedSignature) (imageField (.str "")) 0
      { width := .fin 600, height := .fin 800 } rfl (resolvePage_onePage _ rfl)
      (imageField_not_skipped _)).2.2.2.2.2
      (by rintro ⟨s, hs, hne⟩; exact hne (by injection hs with hs; exact hs.symm))).1
      sharedSignature rfl,
   ((image_field_source sampleHost onePage none (imageField .undefined) 0
      { width := .fin 600, height := .fin 800 } rfl (resolvePage_onePage _ rfl)
      (imageField_not_skipped _)).2.2.2.2.2
      (by rintro ⟨s, hs, _⟩; exact absurd hs (by simp [imageField]))).2 rfl⟩

/-! ## C1: the terminal state of a sign request -/

/-- The name `err` is not bound on line 245. -/
theorem err_unbound_at_line245 :
    resolveIdentifier scopeAtLine245 "err" = .error .referenceError := by
  simp [resolveIdentifier, scopeAtLine245]

/-- C1: the handler never answers `Signed`.  On a request whose document
exists and loads, with no asset to decode and with serialisation and file
write succeeding, the signed file is written and the response is still the
500 "Failed to sign PDF"; and for every server and request the response is
never a `url`. -/
theorem signPdf_never_signed :
    signPdf sampleServer { pdfId := .str "a.pdf", base64Signature := "", fields := some [] } =
      { response := .error 500 "Failed to sign PDF",
        written := some ("signed/a.pdf-signed-0.pdf", [0]) } ∧
    ∀ (sv : Server) (req : SignRequest) (url : String),
      (signPdf sv req).response ≠ .signed url := by
  constructor
  · rfl
  · intro sv req url
    unfold signPdf
    rw [err_unbound_at_line245]
    split
    · simp
    · split
      · split
        · simp
        · split <;> simp
      · simp

/-! ## The box of a field placed inside the page -/

/-- C13, amended: in exact rational arithmetic, on a page of positive size,
a field whose percentages describe a
rectangle inside the page (`0 <= x`, `0 <= w`, `x + w <= 100`, and the same
vertically) is given a box inside the page: `0 <= boxX`,
`boxX + boxWidth <= pw`, `0 <= boxY` and `boxY + boxHeight <= ph`. -/
theorem geometry_box_inside_page (h : Host) (pw ph x y w hh : ℚ) (f : Field)
    (hpw : 0 < pw) (hph : 0 < ph)
    (hx : f.xPercent = .num (.fin x)) (hy : f.yPercent = .num (.fin y))
    (hw : f.widthPercent = .num (.fin w)) (hhh : f.heightPercent = .num (.fin hh))
    (hx0 : 0 ≤ x) (_hw0 : 0 ≤ w) (hxw : x + w ≤ 100)
    (hy0 : 0 ≤ y) (_hh0 : 0 ≤ hh) (hyh : y + hh ≤ 100) :
    ∃ boxX boxY boxWidth boxHeight : ℚ,
      geometryTransform h (.fin pw) (.fin ph) f =
        { boxX := .fin boxX, boxY := .fin boxY, boxWidth := .fin boxWidth,
          boxHeight := .fin boxHeight } ∧
      0 ≤ boxX ∧ boxX + boxWidth ≤ pw ∧ 0 ≤ boxY ∧ boxY + boxHeight ≤ ph := by
  refine ⟨_, _, _, _, geometryTransform_fin h pw ph x y w hh f hx hy hw hhh, ?_, ?_, ?_, ?_⟩
  · positivity
  · have h1 : x / 100 * pw + w / 100 * pw = (x + w) / 100 * pw := by ring
    rw [h1]
    have h2 : (x + w) / 100 ≤ 1 := by linarith
    nlinarith
  · have h1 : ph - y / 100 * ph - hh / 100 * ph = (1 - (y + hh) / 100) * ph := by ring
    rw [h1]
    have h2 : 0 ≤ 1 - (y + hh) / 100 := by linarith
    positivity
  · have h1 : ph - y / 100 * ph - hh / 100 * ph + hh / 100 * ph = ph - y / 100 * ph := by ring
    rw [h1]
    have h2 : 0 ≤ y / 100 * ph := by positivity
    linarith

/-- Witness for C13: the field (10, 10, 30, 10) on a 600 x 800 page. -/
theorem geometry_box_inside_page_witness :
    ∃ boxX boxY boxWidth boxHeight : ℚ,
      geometryTransform sampleHost (.fin 600) (.fin 800) (textField (.str "Hello")) =
        { boxX := .fin boxX, boxY := .fin boxY, boxWidth := .fin boxWidth,
          boxHeight := .fin boxHeight } ∧
      0 ≤ boxX ∧ boxX + boxWidth ≤ 600 ∧ 0 ≤ boxY ∧ boxY + boxHeight ≤ 800 :=
  geometry_box_inside_page sampleHost 600 800 10 10 30 10 (textField (.str "Hello"))
    (by norm_num) (by norm_num) rfl rfl rfl rfl (by norm_num) (by norm_num) (by norm_num)
    (by norm_num) (by norm_num) (by norm_num)

/-! ## The resize step of the editor -/

/-- The width and height the resize step gives the resized field, in closed
form: the minimum 3 is applied first, the clamp to the right and bottom
edge of the page after it. -/
theorem resizeField_size (r : ResizeState) (pw ph : ℚ) (e : MouseEvent) (f : UiField)
    (hid : f.id = r.id) :
    (resizeField r pw ph e f).widthPercent =
      (if f.xPercent + max 3 (r.widthPercent + (e.clientX - r.startX) / pw * 100) > 100
        then 100 - f.xPercent
        else max 3 (r.widthPercent + (e.clientX - r.startX) / pw * 100)) ∧
    (resizeField r pw ph e f).heightPercent =
      (if f.yPercent + max 3 (r.heightPercent + (e.clientY - r.startY) / ph * 100) > 100
        then 100 - f.yPercent
        else max 3 (r.heightPercent + (e.clientY - r.startY) / ph * 100)) := by
  have hmax : ∀ a : ℚ, (if a < 3 then (3 : ℚ) else a) = max 3 a := by
    intro a
    by_cases ha : a < 3
    · rw [if_pos ha, max_eq_left ha.le]
    · rw [if_neg ha, max_eq_right (not_lt.mp ha)]
  unfold resizeField
  simp only [hid, ne_eq, not_true_eq_false, if_false, hmax]
  exact ⟨trivial, trivial⟩

/-- The refutation of C14 as stated: a field dropped at 98 percent from the
left has `0 <= xPercent <= 100`, and the resize step, with the mouse not
moved at all, leaves it 2 percent wide. -/
theorem resize_below_minimum_near_edge :
    0 ≤ droppedNearEdge.xPercent ∧ droppedNearEdge.xPercent ≤ 100 ∧
    0 ≤ droppedNearEdge.yPercent ∧ droppedNearEdge.yPercent ≤ 100 ∧
    ((handleMouseMove (resizing droppedNearEdge) (some { width := 600, height := 800 })
      { clientX := 100, clientY := 100 }).fields.map (fun f => f.widthPercent)) = [2] ∧
    ¬ ((3 : ℚ) ≤ 2) := by
  refine ⟨by norm_num [droppedNearEdge], by norm_num [droppedNearEdge],
    by norm_num [droppedNearEdge], by norm_num [droppedNearEdge], ?_, by norm_num⟩
  have hrect : decide ((600 : ℚ) ≠ 0 ∧ (800 : ℚ) ≠ 0) = true := by
    simp
  simp only [handleMouseMove, resizing, hrect, List.map_cons, List.map_nil]
  rw [(resizeField_size sampleResize 600 800 { clientX := 100, clientY := 100 }
    droppedNearEdge rfl).1]
  norm_num [droppedNearEdge, sampleResize]

/-- C14, amended: while a field is being resized (no side drag, no drag, a
wrapper of non-zero size), `handleMouseMove` maps the resize step over the
fields, and the resized field with `0 <= xPercent <= 97` is left with
`widthPercent >= 3`, the one with `0 <= yPercent <= 97` with
`heightPercent >= 3`; further right or lower, the step leaves exactly the
room to the edge, `100 - xPercent` or `100 - yPercent`. -/
theorem resize_keeps_minimum_size (st : EditorState) (rect : WrapperRect) (e : MouseEvent)
    (r : ResizeState) (hs : st.sideDrag = none) (hd : st.dragState = none)
    (hr : st.resizeState = some r) (hw : rect.width ≠ 0) (hh : rect.height ≠ 0) :
    (handleMouseMove st (some rect) e).fields =
      st.fields.map (resizeField r rect.width rect.height e) ∧
    ∀ f ∈ st.fields, f.id = r.id →
      (0 ≤ f.xPercent → f.xPercent ≤ 97 →
        3 ≤ (resizeField r rect.width rect.height e f).widthPercent) ∧
      (0 ≤ f.yPercent → f.yPercent ≤ 97 →
        3 ≤ (resizeField r rect.width rect.height e f).heightPercent) ∧
      (97 < f.xPercent →
        (resizeField r rect.width rect.height e f).widthPercent = 100 - f.xPercent) ∧
      (97 < f.yPercent →
        (resizeField r rect.width rect.height e f).heightPercent = 100 - f.yPercent) := by
  constructor
  · have hrect : decide (rect.width ≠ 0 ∧ rect.height ≠ 0) = true := by
      simp [hw, hh]
    simp only [handleMouseMove, hs, hd, hr, hrect]
  · intro f _ hid
    obtain ⟨hwd, hht⟩ := resizeField_size r rect.width rect.height e f hid
    rw [hwd, hht]
    refine ⟨?_, ?_, ?_, ?_⟩
    · intro _ hx
      split
      · linarith
      · exact le_max_left _ _
    · intro _ hy
      split
      · linarith
      · exact le_max_left _ _
    · intro hx
      rw [if_pos]
      have := le_max_left (3 : ℚ) (r.widthPercent + (e.clientX - r.startX) / rect.width * 100)
      linarith
    · intro hy
      rw [if_pos]
      have := le_max_left (3 : ℚ) (r.heightPercent + (e.clientY - r.startY) / rect.height * 100)
      linarith

/-- Witness for the amended C14: the field at (10, 10) percent, resized
with the mouse moved 300 pixels to the left and up on a 600 x 800 wrapper,
keeps the minimum size 3 x 3. -/
theorem resize_keeps_minimum_size_witness :
    3 ≤ (resizeField sampleResize 600 800 { clientX := -200, clientY := -200 }
      droppedInside).widthPercent ∧
    3 ≤ (resizeField sampleResize 600 800 { clientX := -200, clientY := -200 }
      droppedInside).heightPercent :=
  ⟨((resize_keeps_minimum_size (resizing droppedInside) { width := 600, height := 800 }
      { clientX := -200, clientY := -200 } sampleResize rfl rfl rfl (by norm_num)
      (by norm_num)).2 droppedInside (by simp [resizing]) rfl).1
      (by norm_num [droppedInside]) (by norm_num [droppedInside]),
   ((resize_keeps_minimum_size (resizing droppedInside) { width := 600, height := 800 }
      { clientX := -200, clientY := -200 } sampleResize rfl rfl rfl (by norm_num)
      (by norm_num)).2 droppedInside (by simp [resizing]) rfl).2.1
      (by norm_num [droppedInside]) (by norm_num [droppedInside])⟩

/-! ## Text fields -/

/-- Dropping a leading run leaves something exactly when some element fails
the test. -/
theorem dropWhile_ne_nil_iff (p : Char → Bool) (l : List Char) :
    l.dropWhile p ≠ [] ↔ ∃ c ∈ l, p c = false := by
  rw [Ne, List.dropWhile_eq_nil_iff]
  constructor
  · intro hn
    by_contra hc
    apply hn
    intro x hx
    by_contra hpx
    exact hc ⟨x, hx, by simpa using hpx⟩
  · rintro ⟨c, hc, hpc⟩ hall
    rw [hall c hc] at hpc
    exact absurd hpc (by simp)

/-- An element failing the test survives the drop of the leading run. -/
theorem exists_in_dropWhile_iff (p : Char → Bool) (l : List Char) :
    (∃ c ∈ l.dropWhile p, p c = false) ↔ ∃ c ∈ l, p c = false := by
  constructor
  · rintro ⟨c, hc, hpc⟩
    exact ⟨c, (List.dropWhile_suffix p).subset hc, hpc⟩
  · intro hex
    have hne : l.dropWhile p ≠ [] := (dropWhile_ne_nil_iff p l).mpr hex
    exact ⟨(l.dropWhile p).head hne, List.head_mem hne, List.head_dropWhile_not p l hne⟩

/-- The trimmed string is non-empty exactly when the string holds a
character that is not white space. -/
theorem jsTrim_ne_empty_iff (s : String) :
    jsTrim s ≠ "" ↔ ∃ c ∈ s.toList, isJsWhiteSpace c = false := by
  have h1 : jsTrim s ≠ "" ↔
      ((s.toList.dropWhile isJsWhiteSpace).reverse.dropWhile isJsWhiteSpace) ≠ [] := by
    unfold jsTrim
    constructor
    · intro hne hnil
      apply hne
      rw [hnil]
      rfl
    · intro hne heq
      apply hne
      have := congrArg String.toList heq
      simpa using this
  rw [h1, dropWhile_ne_nil_iff]
  constructor
  · rintro ⟨c, hc, hpc⟩
    exact (exists_in_dropWhile_iff _ _).mp ⟨c, List.mem_reverse.mp hc, hpc⟩
  · intro hex
    obtain ⟨c, hc, hpc⟩ := (exists_in_dropWhile_iff isJsWhiteSpace s.toList).mpr hex
    exact ⟨c, List.mem_reverse.mpr hc, hpc⟩

/-- The text branch: a text field with a non-skipped box issues one
`drawText` call. -/
theorem renderField_text (h : Host) (sig : Option PDFImage) (idx : Nat) (b : Box) (f : Field)
    (ht : f.type = .str "text") :
    renderField h sig idx b f =
      .ok [.drawText idx (textOf f) (b.boxX + .fin 2)
        (b.boxY + b.boxHeight / .fin 2 - .fin 5) (.fin 10)] := by
  have h5 : JsNum.fin 10 / JsNum.fin 2 = JsNum.fin 5 := by
    rw [JsNum.fin_div_two]
    norm_num
  unfold renderField
  split
  · rename_i heq
    rw [ht] at heq
    simp at heq
  · simp [ht, h5]

/-- C11: a text field with a non-zero box issues exactly one `drawText`
call, of size 10, at `x = boxX + 2` and `y = boxY + boxHeight / 2 - 5`; its
string is the field's value when that is a string holding a character that
is not white space, and the placeholder "Text" otherwise. -/
theorem text_field_draws_value_or_placeholder (h : Host) (pages : List Page)
    (sig : Option PDFImage) (f : Field) (idx : Nat) (page : Page)
    (ht : f.type = .str "text") (hr : resolvePage pages f = some (idx, page))
    (hb : (geometryTransform h page.width page.height f).skipped = false) :
    processField h pages sig (.obj f) =
      .ok [.drawText idx (textOf f)
        ((geometryTransform h page.width page.height f).boxX + .fin 2)
        ((geometryTransform h page.width page.height f).boxY +
          (geometryTransform h page.width page.height f).boxHeight / .fin 2 - .fin 5)
        (.fin 10)] ∧
    (∀ s : String, f.value = .str s → (∃ c ∈ s.toList, isJsWhiteSpace c = false) →
      textOf f = s) ∧
    ((¬ ∃ s : String, f.value = .str s ∧ ∃ c ∈ s.toList, isJsWhiteSpace c = false) →
      textOf f = "Text") := by
  refine ⟨?_, ?_, ?_⟩
  · rw [processField_resolved h pages sig f idx page hr, hb, renderField_text h sig idx _ f ht]
    simp
  · intro s hs hex
    have hne : jsTrim s ≠ "" := (jsTrim_ne_empty_iff s).mpr hex
    simp [textOf, hs, JsVal.truthy, hne]
  · intro hno
    unfold textOf
    cases hv : f.value with
    | str s =>
      have hempty : jsTrim s = "" := by
        by_contra hne
        exact hno ⟨s, hv, (jsTrim_ne_empty_iff s).mp hne⟩
      simp [JsVal.truthy, hempty]
    | undefined => rfl
    | null => rfl
    | bool b => rfl
    | num n => rfl
    | object o => rfl

/-- The box of the sample text field on the 600 x 800 page is not skipped. -/
theorem textField_not_skipped (v : JsVal) :
    (geometryTransform sampleHost (.fin 600) (.fin 800) (textField v)).skipped = false := by
  rw [geometryTransform_fin sampleHost 600 800 10 10 30 10 (textField v) rfl rfl rfl rfl]
  simp [Box.skipped, JsNum.truthy]

/-- A value of two blanks holds no character that is not white space. -/
theorem blanks_hold_no_text :
    ¬ ∃ s : String, (textField (.str "  ")).value = .str s ∧
      ∃ c ∈ s.toList, isJsWhiteSpace c = false := by
  rintro ⟨s, hs, c, hc, hpc⟩
  have hs2 : s = "  " := by
    simp only [textField] at hs
    injection hs with hs
    exact hs.symm
  subst hs2
  have hc2 : c = ' ' := by
    simpa using hc
  subst hc2
  exact absurd hpc (by decide)

/-- Witness for C11: the text field of the spec's example with the value
"Hello" issues one `drawText` call of that value, and the same field with a
value of two blanks draws the placeholder. -/
theorem text_field_draws_value_or_placeholder_witness :
    processField sampleHost onePage none (.obj (textField (.str "Hello"))) =
      .ok [.drawText 0 (textOf (textField (.str "Hello")))
        ((geometryTransform sampleHost (.fin 600) (.fin 800)
          (textField (.str "Hello"))).boxX + .fin 2)
        ((geometryTransform sampleHost (.fin 600) (.fin 800)
          (textField (.str "Hello"))).boxY +
          (geometryTransform sampleHost (.fin 600) (.fin 800)
            (textField (.str "Hello"))).boxHeight / .fin 2 - .fin 5)
        (.fin 10)] ∧
    textOf (textField (.str "Hello")) = "Hello" ∧
    textOf (textField (.str "  ")) = "Text" :=
  ⟨(text_field_draws_value_or_placeholder sampleHost onePage none (textField (.str "Hello")) 0
      { width := .fin 600, height := .fin 800 } rfl (resolvePage_onePage _ rfl)
      (textField_not_skipped _)).1,
   (text_field_draws_value_or_placeholder sampleHost onePage none (textField (.str "Hello")) 0
      { width := .fin 600, height := .fin 800 } rfl (resolvePage_onePage _ rfl)
      (textField_not_skipped _)).2.1 "Hello" rfl ⟨'H', by decide, by decide⟩,
   (text_field_draws_value_or_placeholder sampleHost onePage none (textField (.str "  ")) 0
      { width := .fin 600, height := .fin 800 } rfl (resolvePage_onePage _ rfl)
      (textField_not_skipped _)).2.2 blanks_hold_no_text⟩

/-! ## Date fields -/

/-- One step of the decimal conversion of the runtime. -/
theorem toDigitsCore_step (fuel n : Nat) (ds : List Char) :
    Nat.toDigitsCore 10 (fuel + 1) n ds =
      if n / 10 = 0 then Nat.digitChar (n % 10) :: ds
      else Nat.toDigitsCore 10 fuel (n / 10) (Nat.digitChar (n % 10) :: ds) := by
  simp [Nat.toDigitsCore]

/-- The decimal string of a number below ten. -/
theorem repr_one_digit (n : Nat) (h : n < 10) : Nat.repr n = String.mk [Nat.digitChar n] := by
  unfold Nat.repr Nat.toDigits
  rw [toDigitsCore_step, if_pos (by omega), Nat.mod_eq_of_lt h]
  rfl

/-- The decimal string of a number from 10 to 99. -/
theorem repr_two_digits (n : Nat) (h1 : 10 ≤ n) (h2 : n < 100) :
    Nat.repr n = String.mk [Nat.digitChar (n / 10), Nat.digitChar (n % 10)] := by
  unfold Nat.repr Nat.toDigits
  obtain ⟨k, rfl⟩ : ∃ k, n = k + 1 := ⟨n - 1, by omega⟩
  rw [toDigitsCore_step, if_neg (by omega), toDigitsCore_step, if_pos (by omega),
    Nat.mod_eq_of_lt (by omega : (k + 1) / 10 < 10)]
  rfl

/-- The decimal string of a number from 1000 to 9999. -/
theorem repr_four_digits (n : Nat) (h1 : 1000 ≤ n) (h2 : n < 10000) :
    Nat.repr n = String.mk [Nat.digitChar (n / 1000), Nat.digitChar (n / 100 % 10),
      Nat.digitChar (n / 10 % 10), Nat.digitChar (n % 10)] := by
  unfold Nat.repr Nat.toDigits
  obtain ⟨k, rfl⟩ : ∃ k, n = k + 3 := ⟨n - 3, by omega⟩
  rw [toDigitsCore_step, if_neg (by omega), toDigitsCore_step, if_neg (by omega),
    toDigitsCore_step, if_neg (by omega), toDigitsCore_step, if_pos (by omega)]
  have e1 : (k + 3) / 10 / 10 = (k + 3) / 100 := by omega
  have e2 : (k + 3) / 10 / 10 / 10 = (k + 3) / 1000 := by omega
  have e3 : (k + 3) / 1000 % 10 = (k + 3) / 1000 := by omega
  rw [e2, e1, e3]
  rfl

/-- The call `String(n).padStart(2, '0')` on a number below 100: two
digits, the first a zero below ten. -/
theorem padStart2_repr (n : Nat) (h : n < 100) :
    padStart2 (toString n) = String.mk [Nat.digitChar (n / 10), Nat.digitChar (n % 10)] := by
  show padStart2 (Nat.repr n) = _
  by_cases h10 : n < 10
  · rw [repr_one_digit n h10, Nat.div_eq_of_lt h10, Nat.mod_eq_of_lt h10]
    rfl
  · rw [repr_two_digits n (by omega) h]
    rfl

/-- A digit value is printed as a decimal digit character. -/
theorem digitChar_isDigit (k : Nat) (h : k < 10) : (Nat.digitChar k).isDigit = true := by
  interval_cases k <;> decide

/-- The date branch: a date field with a non-skipped box issues one
`drawText` call of the current date, whatever the field carries. -/
theorem renderField_date (h : Host) (sig : Option PDFImage) (idx : Nat) (b : Box) (f : Field)
    (ht : f.type = .str "date") :
    renderField h sig idx b f =
      .ok [.drawText idx (dateText h) (b.boxX + .fin 2)
        (b.boxY + b.boxHeight / .fin 2 - .fin 5) (.fin 10)] := by
  have h5 : JsNum.fin 10 / JsNum.fin 2 = JsNum.fin 5 := by
    rw [JsNum.fin_div_two]
    norm_num
  unfold renderField
  split
  · rename_i heq
    rw [ht] at heq
    simp at heq
  · simp [ht, h5]

/-- The text of the date in the years 1000 to 9999, digit by digit. -/
theorem dateText_digits (h : Host) (hy1 : 1000 ≤ h.fullYear) (hy2 : h.fullYear ≤ 9999)
    (hm : h.monthIndex + 1 ≤ 12) (hd : h.dayOfMonth ≤ 31) :
    dateText h =
      String.mk [Nat.digitChar (h.fullYear.toNat / 1000),
        Nat.digitChar (h.fullYear.toNat / 100 % 10),
        Nat.digitChar (h.fullYear.toNat / 10 % 10), Nat.digitChar (h.fullYear.toNat % 10), '-',
        Nat.digitChar ((h.monthIndex + 1) / 10), Nat.digitChar ((h.monthIndex + 1) % 10), '-',
        Nat.digitChar (h.dayOfMonth / 10), Nat.digitChar (h.dayOfMonth % 10)] := by
  have hyear : toString h.fullYear = Nat.repr h.fullYear.toNat := by
    have hcast : h.fullYear = ((h.fullYear.toNat : Nat) : Int) :=
      (Int.toNat_of_nonneg (by omega)).symm
    rw [hcast]
    rfl
  unfold dateText
  rw [hyear, repr_four_digits _ (by omega) (by omega), padStart2_repr _ (by omega),
    padStart2_repr _ (by omega)]
  rfl

/-- The box of the sample date field on the 600 x 800 page. -/
theorem geometry_dateField (h : Host) (v : JsVal) :
    geometryTransform h (.fin 600) (.fin 800) (dateField v) =
      { boxX := .fin 0, boxY := .fin 752, boxWidth := .fin 120, boxHeight := .fin 48 } := by
  simp [geometryTransform, numberOrZero, toNumber, JsNum.truthy, dateField, emptyField,
    JsNum.fin_div]
  norm_num

/-- The box of the sample date field is not skipped. -/
theorem dateField_not_skipped (h : Host) (v : JsVal) :
    (geometryTransform h (.fin 600) (.fin 800) (dateField v)).skipped = false := by
  rw [geometry_dateField]
  simp [Box.skipped, JsNum.truthy]

/-- The refutation of C12 as stated: on 1 January 10000 the string drawn
for a date field is "10000-01-01", eleven characters with a five-digit
year. -/
theorem date_text_eleven_chars_in_year_10000 :
    processField farFutureHost onePage none (.obj (dateField .undefined)) =
      .ok [.drawText 0 "10000-01-01" (.fin 2) (.fin 771) (.fin 10)] ∧
    ("10000-01-01" : String).length = 11 := by
  constructor
  · rw [processField_resolved farFutureHost onePage none _ 0
      { width := .fin 600, height := .fin 800 } (resolvePage_onePage _ rfl),
      dateField_not_skipped, renderField_date _ _ _ _ _ rfl, geometry_dateField]
    have ht : dateText farFutureHost = "10000-01-01" := by decide
    rw [ht]
    simp only [Bool.false_eq_true, if_false, JsNum.fin_add, JsNum.fin_div_two, JsNum.fin_sub]
    norm_num
  · decide

/-- C12, amended: in the years 1000 to 9999, with the month from 1 to 12
and the day from 1 to 31, a date field with a non-zero box issues one
`drawText` call whose string is the current date as ten characters, four
year digits, a hyphen, two month digits, a hyphen and two day digits, the
month and the day padded with a zero; the field's own value is ignored. -/
theorem date_field_draws_iso_date (h : Host) (pages : List Page) (sig : Option PDFImage)
    (f : Field) (idx : Nat) (page : Page) (ht : f.type = .str "date")
    (hr : resolvePage pages f = some (idx, page))
    (hb : (geometryTransform h page.width page.height f).skipped = false)
    (hy1 : 1000 ≤ h.fullYear) (hy2 : h.fullYear ≤ 9999)
    (hm : h.monthIndex + 1 ≤ 12) (_hd1 : 1 ≤ h.dayOfMonth) (hd2 : h.dayOfMonth ≤ 31) :
    processField h pages sig (.obj f) =
      .ok [.drawText idx (dateText h)
        ((geometryTransform h page.width page.height f).boxX + .fin 2)
        ((geometryTransform h page.width page.height f).boxY +
          (geometryTransform h page.width page.height f).boxHeight / .fin 2 - .fin 5)
        (.fin 10)] ∧
    dateText h =
      String.mk [Nat.digitChar (h.fullYear.toNat / 1000),
        Nat.digitChar (h.fullYear.toNat / 100 % 10),
        Nat.digitChar (h.fullYear.toNat / 10 % 10), Nat.digitChar (h.fullYear.toNat % 10), '-',
        Nat.digitChar ((h.monthIndex + 1) / 10), Nat.digitChar ((h.monthIndex + 1) % 10), '-',
        Nat.digitChar (h.dayOfMonth / 10), Nat.digitChar (h.dayOfMonth % 10)] ∧
    (dateText h).length = 10 ∧
    (dateText h).toList.map Char.isDigit =
      [true, true, true, true, false, true, true, false, true, true] ∧
    ∀ v : JsVal, processField h pages sig (.obj { f with value := v }) =
      processField h pages sig (.obj f) := by
  have hdigits := dateText_digits h hy1 hy2 hm hd2
  refine ⟨?_, hdigits, ?_, ?_, ?_⟩
  · rw [processField_resolved h pages sig f idx page hr, hb, renderField_date h sig idx _ f ht]
    simp
  · rw [hdigits]
    rfl
  · rw [hdigits]
    have hminus : Char.isDigit '-' = false := by decide
    simp only [String.toList, List.map_cons, List.map_nil, hminus]
    rw [digitChar_isDigit _ (by omega), digitChar_isDigit _ (by omega),
      digitChar_isDigit _ (by omega), digitChar_isDigit _ (by omega),
      digitChar_isDigit _ (by omega), digitChar_isDigit _ (by omega),
      digitChar_isDigit _ (by omega), digitChar_isDigit _ (by omega)]
  · intro v
    have hrv : resolvePage pages { f with value := v } = some (idx, page) := hr
    have hg : geometryTransform h page.width page.height { f with value := v } =
        geometryTransform h page.width page.height f := rfl
    have htv : ({ f with value := v } : Field).type = .str "date" := ht
    rw [processField_resolved h pages sig _ idx page hrv, hg,
      processField_resolved h pages sig f idx page hr,
      renderField_date h sig idx _ _ htv, renderField_date h sig idx _ f ht]

/-- Witness for the amended C12: on 7 March 2024 the date field, whatever
its value, draws the ten characters "2024-03-07". -/
theorem date_field_draws_iso_date_witness :
    dateText sampleHost =
      String.mk [Nat.digitChar (sampleHost.fullYear.toNat / 1000),
        Nat.digitChar (sampleHost.fullYear.toNat / 100 % 10),
        Nat.digitChar (sampleHost.fullYear.toNat / 10 % 10),
        Nat.digitChar (sampleHost.fullYear.toNat % 10), '-',
        Nat.digitChar ((sampleHost.monthIndex + 1) / 10),
        Nat.digitChar ((sampleHost.monthIndex + 1) % 10), '-',
        Nat.digitChar (sampleHost.dayOfMonth / 10),
        Nat.digitChar (sampleHost.dayOfMonth % 10)] ∧
    (dateText sampleHost).length = 10 ∧
    processField sampleHost onePage none (.obj { dateField .undefined with value := .str "x" }) =
      processField sampleHost onePage none (.obj (dateField .undefined)) :=
  ⟨(date_field_draws_iso_date sampleHost onePage none (dateField .undefined) 0
      { width := .fin 600, height := .fin 800 } rfl (resolvePage_onePage _ rfl)
      (dateField_not_skipped _ _) (by decide) (by decide) (by decide) (by decide)
      (by decide)).2.1,
   (date_field_draws_iso_date sampleHost onePage none (dateField .undefined) 0
      { width := .fin 600, height := .fin 800 } rfl (resolvePage_onePage _ rfl)
      (dateField_not_skipped _ _) (by decide) (by decide) (by decide) (by decide)
      (by decide)).2.2.1,
   (date_field_draws_iso_date sampleHost onePage none (dateField .undefined) 0
      { width := .fin 600, height := .fin 800 } rfl (resolvePage_onePage _ rfl)
      (dateField_not_skipped _ _) (by decide) (by decide) (by decide) (by decide)
      (by decide)).2.2.2.2 (.str "x")⟩

/-- The date drawn by the sample host reads "2024-03-07". -/
theorem dateText_sampleHost : dateText sampleHost = "2024-03-07" := by
  decide

/-! ## Rounding to doubles -/

/-- The halving count brackets its argument between two powers of two. -/
theorem log2Aux_bounds (fuel : Nat) :
    ∀ n : Nat, n ≤ fuel → 1 ≤ n → 2 ^ log2Aux fuel n ≤ n ∧ n < 2 ^ (log2Aux fuel n + 1) := by
  induction fuel with
  | zero =>
    intro n h0 h1
    omega
  | succ k ih =>
    intro n hk h1
    by_cases h2 : n < 2
    · have hn : n = 1 := by omega
      subst hn
      simp [log2Aux]
    · rw [log2Aux, if_neg h2]
      obtain ⟨hlo, hhi⟩ := ih (n / 2) (by omega) (by omega)
      rw [pow_succ, pow_succ]
      rw [pow_succ] at hhi
      constructor
      · omega
      · omega

/-- The integer part of the binary logarithm: `2 ^ e <= n < 2 ^ (e + 1)`. -/
theorem floorLog2_bounds (n : Nat) (hn : 1 ≤ n) :
    2 ^ floorLog2 n ≤ n ∧ n < 2 ^ (floorLog2 n + 1) :=
  log2Aux_bounds n n (le_refl n) hn

/-- The rounding on known values: one tenth is stored as
0.1000000000000000055511151231257827, a tie goes to the even significand
(`2^53 + 1` to `2^53`, `2^53 + 3` to `2^53 + 4`), half the smallest
subnormal goes to zero and three halves of it to twice it, and `2^1024`
overflows to an infinity of its sign. -/
theorem toDouble_known_values :
    JsNum.toDouble (.fin (1 / 10)) = .fin (3602879701896397 / 36028797018963968) ∧
    JsNum.toDouble (.fin (2 ^ 53 + 1)) = .fin (2 ^ 53) ∧
    JsNum.toDouble (.fin (2 ^ 53 + 3)) = .fin (2 ^ 53 + 4) ∧
    JsNum.toDouble (.fin (1 / 2 ^ 1075)) = .fin 0 ∧
    JsNum.toDouble (.fin (3 / 2 ^ 1075)) = .fin (2 / 2 ^ 1074) ∧
    JsNum.toDouble (.fin (2 ^ 1024)) = .pinf ∧
    JsNum.toDouble (.fin (-(2 ^ 1024))) = .ninf ∧
    JsNum.toDouble (.fin (-(1 / 3))) = .fin (-(6004799503160661 / 18014398509481984)) := by
  refine ⟨by decide!, by decide!, by decide!, by decide!, by decide!, by decide!, by decide!,
    by decide!⟩

/-! ## The fit and the geometry transform in doubles -/

/-- The refutation of C3 as stated, in the doubles the code computes with:
for a 300 x 100 asset in the 50 x 50 box at (10, 20) the drawn rectangle is
50 wide and 16.666666666666664 high at y = 36.66666666666667.  The size
(50, 50/3) has the asset's aspect ratio and fits in the box, and is higher
than the drawn one; and the margins below and above the drawn rectangle
differ. -/
theorem fit_in_doubles_not_largest_nor_centred :
    fitImageDouble (.fin 300) (.fin 100) (.fin 10) (.fin 20) (.fin 50) (.fin 50) =
      { x := .fin 10, y := .fin (2580187286514347 / 70368744177664), width := .fin 50,
        height := .fin (2345624805922133 / 140737488355328) } ∧
    ((0 : ℚ) < 50 ∧ (0 : ℚ) < 50 / 3 ∧ (50 : ℚ) * 100 = 50 / 3 * 300 ∧ (50 : ℚ) ≤ 50 ∧
      (50 / 3 : ℚ) ≤ 50 ∧ ¬ ((50 / 3 : ℚ) ≤ 2345624805922133 / 140737488355328)) ∧
    (2580187286514347 / 70368744177664 : ℚ) - 20 ≠
      (20 + 50) - (2580187286514347 / 70368744177664 + 2345624805922133 / 140737488355328) := by
  have s1 : (JsNum.fin 100 / JsNum.fin 300).toDouble =
      JsNum.fin (6004799503160661 / 18014398509481984) := by decide!
  have s2 : (JsNum.fin (6004799503160661 / 18014398509481984) * JsNum.fin 50).toDouble =
      JsNum.fin (2345624805922133 / 140737488355328) := by decide!
  have hg : JsNum.gt (JsNum.fin (2345624805922133 / 140737488355328)) (JsNum.fin 50) = false := by
    decide!
  have s3 : (JsNum.fin 50 - JsNum.fin 50).toDouble = JsNum.fin 0 := by decide!
  have s4 : (JsNum.fin 0 / JsNum.fin 2).toDouble = JsNum.fin 0 := by decide!
  have s5 : (JsNum.fin 10 + JsNum.fin 0).toDouble = JsNum.fin 10 := by decide!
  have s6 : (JsNum.fin 50 - JsNum.fin (2345624805922133 / 140737488355328)).toDouble =
      JsNum.fin (4691249611844267 / 140737488355328) := by decide!
  have s7 : (JsNum.fin (4691249611844267 / 140737488355328) / JsNum.fin 2).toDouble =
      JsNum.fin (4691249611844267 / 281474976710656) := by decide!
  have s8 : (JsNum.fin 20 + JsNum.fin (4691249611844267 / 281474976710656)).toDouble =
      JsNum.fin (2580187286514347 / 70368744177664) := by decide!
  refine ⟨?_, by norm_num, by norm_num⟩
  unfold fitImageDouble
  simp only [s1, s2, hg, Bool.false_eq_true, if_false, s3, s4, s5, s6, s7, s8]

/-- The refutation of C13 as stated, in the doubles the code computes with:
the field (45, 45, 55, 55) on a 600 x 800 page meets every bound of the
claim, and its box is 440.00000000000006 high with `boxY` below zero. -/
theorem geometry_in_doubles_leaves_page :
    geometryTransformDouble sampleHost (.fin 600) (.fin 800) edgeField =
      { boxX := .fin 270, boxY := .fin (-1 / 17592186044416), boxWidth := .fin 330,
        boxHeight := .fin (7740561859543041 / 17592186044416) } ∧
    ((0 : ℚ) < 600 ∧ (0 : ℚ) < 800 ∧ (0 : ℚ) ≤ 45 ∧ (0 : ℚ) ≤ 55 ∧ (45 + 55 : ℚ) ≤ 100) ∧
    ¬ ((0 : ℚ) ≤ -1 / 17592186044416) := by
  have hx : edgeField.xPercent = .num (.fin 45) := rfl
  have hy : edgeField.yPercent = .num (.fin 45) := rfl
  have hw : edgeField.widthPercent = .num (.fin 55) := rfl
  have hh : edgeField.heightPercent = .num (.fin 55) := rfl
  have s1 : (JsNum.fin 55 / JsNum.fin 100).toDouble =
      JsNum.fin (2476979795053773 / 4503599627370496) := by decide!
  have s2 : (JsNum.fin (2476979795053773 / 4503599627370496) * JsNum.fin 600).toDouble =
      JsNum.fin 330 := by decide!
  have s4 : (JsNum.fin (2476979795053773 / 4503599627370496) * JsNum.fin 800).toDouble =
      JsNum.fin (7740561859543041 / 17592186044416) := by decide!
  have s5 : (JsNum.fin 45 / JsNum.fin 100).toDouble =
      JsNum.fin (8106479329266893 / 18014398509481984) := by decide!
  have s6 : (JsNum.fin (8106479329266893 / 18014398509481984) * JsNum.fin 600).toDouble =
      JsNum.fin 270 := by decide!
  have s8 : (JsNum.fin (8106479329266893 / 18014398509481984) * JsNum.fin 800).toDouble =
      JsNum.fin 360 := by decide!
  have s9 : (JsNum.fin 800 - JsNum.fin 360).toDouble = JsNum.fin 440 := by decide!
  have s10 : (JsNum.fin 440 - JsNum.fin (7740561859543041 / 17592186044416)).toDouble =
      JsNum.fin (-1 / 17592186044416) := by decide!
  refine ⟨?_, by norm_num, by norm_num⟩
  unfold geometryTransformDouble
  simp only [hx, hy, hw, hh, numberOrZero_fin, s1, s2, s4, s5, s6, s8, s9, s10]

end BoloForms
